import Mathlib

/-!
Verification of the Celestia observer core (src/celengine/observer.cpp and
observer.h) against its natural-language specification.

The observer code is embedded shallowly over exact real arithmetic: the
C++ `double` values become `ℝ`, Eigen `Vector3d` becomes `Vec3`, Eigen
`Quaterniond` becomes Mathlib's `Quaternion ℝ`, and `UniversalCoord`
becomes a real 3-vector.  Collaborator code that is not part of the
staged sources (univcoord.h, frame.cpp, selection.h, body.h,
celmath/solve.h, celmath/geomutil.h) is modelled from the specification;
every such definition carries a doc comment starting with
`Modelled from the spec:`.  Everything from observer.cpp / observer.h is
translated statement by statement from the source.
-/

open scoped Classical

noncomputable section

/-- A 3-vector of reals, standing for Eigen's `Vector3d` (exact reals in
place of doubles). -/
@[ext]
structure Vec3 where
  x : ℝ
  y : ℝ
  z : ℝ

instance : Zero Vec3 := ⟨⟨0, 0, 0⟩⟩

instance : Add Vec3 := ⟨fun a b => ⟨a.x + b.x, a.y + b.y, a.z + b.z⟩⟩

instance : Neg Vec3 := ⟨fun a => ⟨-a.x, -a.y, -a.z⟩⟩

instance : Sub Vec3 := ⟨fun a b => ⟨a.x - b.x, a.y - b.y, a.z - b.z⟩⟩

instance : SMul ℝ Vec3 := ⟨fun c a => ⟨c * a.x, c * a.y, c * a.z⟩⟩

@[simp] theorem Vec3.zero_x : (0 : Vec3).x = 0 := rfl

@[simp] theorem Vec3.zero_y : (0 : Vec3).y = 0 := rfl

@[simp] theorem Vec3.zero_z : (0 : Vec3).z = 0 := rfl

@[simp] theorem Vec3.add_x (a b : Vec3) : (a + b).x = a.x + b.x := rfl

@[simp] theorem Vec3.add_y (a b : Vec3) : (a + b).y = a.y + b.y := rfl

@[simp] theorem Vec3.add_z (a b : Vec3) : (a + b).z = a.z + b.z := rfl

@[simp] theorem Vec3.sub_x (a b : Vec3) : (a - b).x = a.x - b.x := rfl

@[simp] theorem Vec3.sub_y (a b : Vec3) : (a - b).y = a.y - b.y := rfl

@[simp] theorem Vec3.sub_z (a b : Vec3) : (a - b).z = a.z - b.z := rfl

@[simp] theorem Vec3.neg_x (a : Vec3) : (-a).x = -a.x := rfl

@[simp] theorem Vec3.neg_y (a : Vec3) : (-a).y = -a.y := rfl

@[simp] theorem Vec3.neg_z (a : Vec3) : (-a).z = -a.z := rfl

@[simp] theorem Vec3.smul_x (c : ℝ) (a : Vec3) : (c • a).x = c * a.x := rfl

@[simp] theorem Vec3.smul_y (c : ℝ) (a : Vec3) : (c • a).y = c * a.y := rfl

@[simp] theorem Vec3.smul_z (c : ℝ) (a : Vec3) : (c • a).z = c * a.z := rfl

@[simp] theorem Vec3.mk_x (a b c : ℝ) : (Vec3.mk a b c).x = a := rfl

@[simp] theorem Vec3.mk_y (a b c : ℝ) : (Vec3.mk a b c).y = b := rfl

@[simp] theorem Vec3.mk_z (a b c : ℝ) : (Vec3.mk a b c).z = c := rfl

/-- Dot product of 3-vectors (Eigen `dot`). -/
def Vec3.dot (a b : Vec3) : ℝ := a.x * b.x + a.y * b.y + a.z * b.z

/-- Cross product of 3-vectors (Eigen `cross`). -/
def Vec3.cross (a b : Vec3) : Vec3 :=
  ⟨a.y * b.z - a.z * b.y, a.z * b.x - a.x * b.z, a.x * b.y - a.y * b.x⟩

/-- Squared Euclidean norm. -/
def Vec3.normSq (a : Vec3) : ℝ := a.x ^ 2 + a.y ^ 2 + a.z ^ 2

/-- Euclidean norm (Eigen `norm`). -/
def Vec3.norm (a : Vec3) : ℝ := Real.sqrt a.normSq

/-- Eigen `normalized()`: the vector divided by its norm.  Division by
zero yields the zero vector in this exact model. -/
def Vec3.normalized (a : Vec3) : Vec3 := (1 / a.norm) • a

@[simp] theorem Vec3.normSq_zero : (0 : Vec3).normSq = 0 := by
  simp [Vec3.normSq]

@[simp] theorem Vec3.norm_zero : (0 : Vec3).norm = 0 := by
  simp [Vec3.norm]

theorem Vec3.normSq_nonneg (a : Vec3) : 0 ≤ a.normSq := by
  have := sq_nonneg a.x
  have := sq_nonneg a.y
  have := sq_nonneg a.z
  simp only [Vec3.normSq]
  linarith

theorem Vec3.norm_nonneg (a : Vec3) : 0 ≤ a.norm := Real.sqrt_nonneg _

theorem Vec3.normSq_eq_zero_iff (a : Vec3) : a.normSq = 0 ↔ a = 0 := by
  constructor
  · intro h
    have hx := sq_nonneg a.x
    have hy := sq_nonneg a.y
    have hz := sq_nonneg a.z
    simp only [Vec3.normSq] at h
    ext <;> simp <;> nlinarith
  · intro h; subst h; simp

theorem Vec3.norm_eq_zero_iff (a : Vec3) : a.norm = 0 ↔ a = 0 := by
  rw [Vec3.norm, Real.sqrt_eq_zero' ]
  constructor
  · intro h
    exact (Vec3.normSq_eq_zero_iff a).mp (le_antisymm h (Vec3.normSq_nonneg a))
  · intro h; subst h; simp

theorem Vec3.norm_sq_eq (a : Vec3) : a.norm ^ 2 = a.normSq := by
  rw [Vec3.norm, Real.sq_sqrt (Vec3.normSq_nonneg a)]

/-- Norm of a vector lying on the x-axis. -/
theorem Vec3.norm_axis (a : ℝ) : (Vec3.mk a 0 0).norm = |a| := by
  simp [Vec3.norm, Vec3.normSq, Real.sqrt_sq_eq_abs]

theorem Vec3.norm_smul (c : ℝ) (a : Vec3) : (c • a).norm = |c| * a.norm := by
  simp only [Vec3.norm, Vec3.normSq]
  rw [show (c • a).x ^ 2 + (c • a).y ^ 2 + (c • a).z ^ 2
        = c ^ 2 * (a.x ^ 2 + a.y ^ 2 + a.z ^ 2) by simp; ring]
  rw [Real.sqrt_mul (sq_nonneg c), Real.sqrt_sq_eq_abs]

theorem Vec3.norm_normalized (a : Vec3) (h : a ≠ 0) : a.normalized.norm = 1 := by
  have hn : a.norm ≠ 0 := fun h0 => h ((Vec3.norm_eq_zero_iff a).mp h0)
  have hpos : 0 < a.norm := lt_of_le_of_ne (Vec3.norm_nonneg a) (Ne.symm hn)
  rw [Vec3.normalized, Vec3.norm_smul, abs_of_pos (by positivity), one_div,
    inv_mul_cancel₀ hn]

/-- `lerp` from celmath/mathlib.h: `a + t * (b - a)`. -/
def lerp (t a b : ℝ) : ℝ := a + t * (b - a)

/-- `std::clamp(v, lo, hi)`. -/
def clamp (v lo hi : ℝ) : ℝ := max lo (min v hi)

/-- Real quaternions, standing for Eigen's `Quaterniond`. -/
abbrev Quat := Quaternion ℝ

/-- The imaginary (vector) part of a quaternion as a `Vec3`. -/
def Quaternion.vec3 (q : Quat) : Vec3 := ⟨q.imI, q.imJ, q.imK⟩

/-- A pure-imaginary quaternion with the given vector part. -/
def Vec3.toQuat (v : Vec3) : Quat := ⟨0, v.x, v.y, v.z⟩

@[simp] theorem Vec3.toQuat_re (v : Vec3) : v.toQuat.re = 0 := rfl

@[simp] theorem Quaternion.vec3_toQuat (v : Vec3) : v.toQuat.vec3 = v := rfl

/-- Eigen's `Quaterniond::squaredNorm` over the four coefficients, i.e.
Mathlib's `Quaternion.normSq`. -/
def qnormSq (q : Quat) : ℝ := Quaternion.normSq q

/-- Eigen's quaternion `normalize`: divide by the coefficient norm.  In
this exact model a zero quaternion normalizes to zero. -/
def qnormalize (q : Quat) : Quat := (1 / Real.sqrt (qnormSq q)) • q

/-- Eigen's dot product of two quaternions' coefficient vectors. -/
def qdot (a b : Quat) : ℝ :=
  a.re * b.re + a.imI * b.imI + a.imJ * b.imJ + a.imK * b.imK

/-- Eigen's `Quaterniond::slerp` (spherical interpolation of the two
coefficient vectors, shortest path). -/
def qslerp (t : ℝ) (a b : Quat) : Quat :=
  let d := qdot a b
  if 1 ≤ |d| then (1 - t) • a + t • b
  else
    let theta := Real.arccos |d|
    let s0 := Real.sin ((1 - t) * theta) / Real.sin theta
    let s1 := Real.sin (t * theta) / Real.sin theta
    if d < 0 then s0 • a + (-s1) • b else s0 • a + s1 • b

/-- Eigen's quaternion-vector product `q * v` (`_transformVector`):
`v + 2 w (u × v) + 2 u × (u × v)` with `u` the imaginary part.  For unit
quaternions this is rotation by `q`. -/
def qrotE (q : Quat) (v : Vec3) : Vec3 :=
  let u := q.vec3
  let uv : Vec3 := (2 : ℝ) • u.cross v
  v + q.re • uv + u.cross uv

/-- Rotation of a vector by full quaternion conjugation `q v q⁻¹`; total:
the zero quaternion acts as the identity.  Used for the spec-modelled
reference-frame conversions. -/
def rotAct (q : Quat) (v : Vec3) : Vec3 :=
  if q = 0 then v else (q * v.toQuat * q⁻¹).vec3

theorem Quaternion.re_mul_comm (a b : Quat) : (a * b).re = (b * a).re := by
  simp only [Quaternion.mul_re]; ring

theorem rotAct_pure (q : Quat) (v : Vec3) (hq : q ≠ 0) :
    (q * v.toQuat * q⁻¹).re = 0 := by
  have : (q * v.toQuat * q⁻¹).re = ((q * v.toQuat) * q⁻¹).re := rfl
  rw [this, Quaternion.re_mul_comm, ← mul_assoc, inv_mul_cancel₀ hq, one_mul]
  simp

theorem toQuat_vec3_of_pure (q : Quat) (h : q.re = 0) : q.vec3.toQuat = q := by
  apply Quaternion.ext <;> simp [Vec3.toQuat, Quaternion.vec3, h]

theorem rotAct_rotAct_inv (q : Quat) (v : Vec3) :
    rotAct q (rotAct q⁻¹ v) = v := by
  by_cases hq : q = 0
  · simp [rotAct, hq]
  · have hqi : q⁻¹ ≠ 0 := inv_ne_zero hq
    simp only [rotAct, if_neg hq, if_neg hqi]
    rw [toQuat_vec3_of_pure _ (by simpa using rotAct_pure q⁻¹ v hqi)]
    rw [inv_inv]
    calc (q * (q⁻¹ * v.toQuat * q) * q⁻¹).vec3
        = (q * q⁻¹ * v.toQuat * (q * q⁻¹)).vec3 := by
          rw [show q * (q⁻¹ * v.toQuat * q) * q⁻¹
                = q * q⁻¹ * v.toQuat * (q * q⁻¹) by
            simp [mul_assoc]]
      _ = v := by rw [mul_inv_cancel₀ hq]; simp

theorem rotAct_inv_rotAct (q : Quat) (v : Vec3) :
    rotAct q⁻¹ (rotAct q v) = v := by
  have := rotAct_rotAct_inv q⁻¹ v
  rwa [inv_inv] at this

/-- Modelled from the spec: `UniversalCoord` (univcoord.h is not among the
staged sources) is "an opaque high-precision 3-vector" supporting
`offsetKm`, `offsetFromKm` and a bounds check; it is modelled as an exact
real 3-vector. -/
abbrev UniversalCoord := Vec3

/-- `UniversalCoord::offsetKm`: add a kilometer-scale offset. -/
def UniversalCoord.offsetKm (p : UniversalCoord) (v : Vec3) : UniversalCoord := p + v

/-- `UniversalCoord::offsetFromKm`: the relative vector from `q` to `p`. -/
def UniversalCoord.offsetFromKm (p q : UniversalCoord) : Vec3 := p - q

/-- Modelled from the spec: the numeric limit of the representable range of
`UniversalCoord` is not given by the spec; a fixed large limit is used.
No claim settled here depends on its value. -/
def universalCoordLimit : ℝ := 1e32

/-- Modelled from the spec: `UniversalCoord::isOutOfBounds`, the "bounds
check" of the high-precision coordinate: some coordinate exceeds the
representable range. -/
def UniversalCoord.isOutOfBounds (p : UniversalCoord) : Prop :=
  universalCoordLimit < |p.x| ∨ universalCoordLimit < |p.y| ∨ universalCoordLimit < |p.z|

/-- `UniversalCoord::Zero()`. -/
def UniversalCoord.zero : UniversalCoord := 0

/-- Modelled from the spec: the `Selection` abstraction (selection.h,
body.h, star.h are not among the staged sources).  A selection is empty or
one of body / star / deep-sky object / location, and exposes
`getPosition(time)`, `radius()`, `empty()`, `parent()` and the
type-specific data that `getPreferredDistance` in observer.cpp reads:
a body's classification (invisible or not), its frame tree's bounding
sphere radius, a star's visibility and the bounding radii of the orbits of
its orbiting stars, a location's size and parent body.  `sysCenter` models
the resolution `body->getSystem()` followed by "primary body if present,
else the system's star" performed by the great-circle branch of
`Observer::update`; `meqAxes` and `bfAxes` model the object's
mean-equator and body-fixed frame orientations (frame.cpp is absent, and
no claim depends on their values). -/
inductive Sel where
  | empty : Sel
  | body (pos : ℝ → Vec3) (radius : ℝ) (invisible : Bool)
      (frameTreeRadius : Option ℝ) (sysCenter : Option Sel) (parent : Sel)
      (meqAxes bfAxes : ℝ → Quat) : Sel
  | star (pos : ℝ → Vec3) (radius : ℝ) (visible : Bool)
      (orbitRadii : Option (List (Option ℝ))) (parent : Sel)
      (meqAxes bfAxes : ℝ → Quat) : Sel
  | deepSky (pos : ℝ → Vec3) (radius : ℝ) (parent : Sel) : Sel
  | location (pos : ℝ → Vec3) (size : ℝ) (parentBody : Sel) : Sel

/-- Modelled from the spec: `Selection::empty()`. -/
def Sel.isEmpty : Sel → Bool
  | Sel.empty => true
  | _ => false

/-- Modelled from the spec: `Selection::getPosition(time)`; the empty
selection sits at the universal origin. -/
def Sel.getPosition : Sel → ℝ → UniversalCoord
  | Sel.empty, _ => 0
  | Sel.body p _ _ _ _ _ _ _, t => p t
  | Sel.star p _ _ _ _ _ _, t => p t
  | Sel.deepSky p _ _, t => p t
  | Sel.location p _ _, t => p t

/-- Modelled from the spec: `Selection::radius()` (a location's radius is
its size). -/
def Sel.radius : Sel → ℝ
  | Sel.empty => 0
  | Sel.body _ r _ _ _ _ _ _ => r
  | Sel.star _ r _ _ _ _ _ => r
  | Sel.deepSky _ r _ => r
  | Sel.location _ s _ => s

/-- Modelled from the spec: `Selection::parent()`, stored as data. -/
def Sel.parent : Sel → Sel
  | Sel.empty => Sel.empty
  | Sel.body _ _ _ _ _ p _ _ => p
  | Sel.star _ _ _ _ p _ _ => p
  | Sel.deepSky _ _ p => p
  | Sel.location _ _ p => p

/-- Modelled from the spec: the body's mean-equator frame orientation
(identity for selections that have none). -/
def Sel.meqAxesOf : Sel → ℝ → Quat
  | Sel.body _ _ _ _ _ _ a _ => a
  | Sel.star _ _ _ _ _ a _ => a
  | _ => fun _ => 1

/-- Modelled from the spec: the body-fixed frame orientation (identity for
selections that have none). -/
def Sel.bfAxesOf : Sel → ℝ → Quat
  | Sel.body _ _ _ _ _ _ _ a => a
  | Sel.star _ _ _ _ _ _ a => a
  | _ => fun _ => 1

/-- Modelled from the spec: a `FrameVector` of the external frame library,
mirroring the `FrameVector::create*` calls in
`ObserverFrame::createFrame`. -/
inductive FrameVec where
  | relativePosition (observer target : Sel) : FrameVec
  | relativeVelocity (observer target : Sel) : FrameVec
  | constantVector (v : Vec3) (frameCenter : Sel) : FrameVec

/-- Modelled from the spec: the orientation of a `TwoVectorFrame`
(frame.cpp is absent).  The spec describes the construction only
qualitatively ("built from two independent direction vectors"); no claim
settled here depends on the axes' values, so they are modelled as a fixed
rotation (the identity). -/
def twoVectorAxes (_center : Sel) (_prim : FrameVec) (_primAxis : ℤ)
    (_sec : FrameVec) (_secAxis : ℤ) : ℝ → Quat := fun _ => 1

/-- Modelled from the spec: a concrete `ReferenceFrame` of the external
frame library: a center selection plus a time-parameterized orientation.
Positions convert by translating by the center's position and rotating by
the axes; orientations convert by composing with the axes.  Both
conversions are exact inverse pairs, which is the frame round-trip
contract of the spec. -/
structure ReferenceFrame where
  centerSel : Sel
  axes : ℝ → Quat

/-- Modelled from the spec: `ReferenceFrame::getCenter()`. -/
def ReferenceFrame.getCenter (f : ReferenceFrame) : Sel := f.centerSel

/-- Modelled from the spec: `ReferenceFrame::getOrientation(tjd)`. -/
def ReferenceFrame.getOrientation (f : ReferenceFrame) (t : ℝ) : Quat := f.axes t

/-- Modelled from the spec: universal-to-local conversion of a position. -/
def ReferenceFrame.posFromUniversal (f : ReferenceFrame) (p : UniversalCoord) (t : ℝ) :
    UniversalCoord :=
  rotAct (f.axes t) (p - f.centerSel.getPosition t)

/-- Modelled from the spec: local-to-universal conversion of a position. -/
def ReferenceFrame.posToUniversal (f : ReferenceFrame) (p : UniversalCoord) (t : ℝ) :
    UniversalCoord :=
  f.centerSel.getPosition t + rotAct (f.axes t)⁻¹ p

/-- Modelled from the spec: universal-to-local conversion of an
orientation (the zero quaternion never arises from unit axes; it is
guarded so the conversions stay exact inverses in all cases). -/
def ReferenceFrame.oriFromUniversal (f : ReferenceFrame) (q : Quat) (t : ℝ) : Quat :=
  if f.axes t = 0 then q else q * (f.axes t)⁻¹

/-- Modelled from the spec: local-to-universal conversion of an
orientation. -/
def ReferenceFrame.oriToUniversal (f : ReferenceFrame) (q : Quat) (t : ℝ) : Quat :=
  if f.axes t = 0 then q else q * f.axes t

theorem ReferenceFrame.pos_roundTrip (f : ReferenceFrame) (p : UniversalCoord) (t : ℝ) :
    f.posFromUniversal (f.posToUniversal p t) t = p := by
  simp only [ReferenceFrame.posFromUniversal, ReferenceFrame.posToUniversal]
  rw [show f.centerSel.getPosition t + rotAct (f.axes t)⁻¹ p - f.centerSel.getPosition t
        = rotAct (f.axes t)⁻¹ p by ext <;> simp]
  exact rotAct_rotAct_inv _ p

theorem ReferenceFrame.pos_roundTrip' (f : ReferenceFrame) (p : UniversalCoord) (t : ℝ) :
    f.posToUniversal (f.posFromUniversal p t) t = p := by
  simp only [ReferenceFrame.posFromUniversal, ReferenceFrame.posToUniversal]
  rw [rotAct_inv_rotAct]
  ext <;> simp

theorem ReferenceFrame.ori_roundTrip (f : ReferenceFrame) (q : Quat) (t : ℝ) :
    f.oriFromUniversal (f.oriToUniversal q t) t = q := by
  simp only [ReferenceFrame.oriFromUniversal, ReferenceFrame.oriToUniversal]
  by_cases h : f.axes t = 0
  · simp [h]
  · simp only [if_neg h]
    rw [mul_assoc, mul_inv_cancel₀ h, mul_one]

theorem ReferenceFrame.ori_roundTrip' (f : ReferenceFrame) (q : Quat) (t : ℝ) :
    f.oriToUniversal (f.oriFromUniversal q t) t = q := by
  simp only [ReferenceFrame.oriFromUniversal, ReferenceFrame.oriToUniversal]
  by_cases h : f.axes t = 0
  · simp [h]
  · simp only [if_neg h]
    rw [mul_assoc, inv_mul_cancel₀ h, mul_one]

/-- The unit y vector (`Vector3d::UnitY()`). -/
def Vec3.unitY : Vec3 := ⟨0, 1, 0⟩

/-- The unit z vector (`Vector3d::UnitZ()`). -/
def Vec3.unitZ : Vec3 := ⟨0, 0, 1⟩

/-- `ObserverFrame::CoordinateSystem` (observer.h). -/
inductive CoordinateSystem where
  | Universal | Ecliptical | Equatorial | BodyFixed | PhaseLock | Chase
  | PhaseLock_Old | Chase_Old | ObserverLocal | Unknown
deriving DecidableEq

/-- `ObserverFrame`: a `ReferenceFrame` wrapped with a coordinate-system
tag and the target object (observer.h). -/
structure ObserverFrame where
  coordSys : CoordinateSystem
  frame : ReferenceFrame
  targetObject : Sel

/-- `ObserverFrame::createFrame` (observer.cpp): the `ReferenceFrame` for
the given coordinate system and anchors.  The concrete frame classes
(J2000EclipticFrame, BodyMeanEquatorFrame, BodyFixedFrame,
TwoVectorFrame, frame.cpp) are not among the staged sources and are
modelled from the spec: each is a center selection plus an orientation
function; a J2000 ecliptic frame's axes are the identity. -/
def ObserverFrame.createFrame (cs : CoordinateSystem) (refObj targetObj : Sel) :
    ReferenceFrame :=
  match cs with
  | CoordinateSystem.Universal => ⟨Sel.empty, fun _ => 1⟩
  | CoordinateSystem.Ecliptical => ⟨refObj, fun _ => 1⟩
  | CoordinateSystem.Equatorial => ⟨refObj, refObj.meqAxesOf⟩
  | CoordinateSystem.BodyFixed => ⟨refObj, refObj.bfAxesOf⟩
  | CoordinateSystem.PhaseLock =>
      ⟨refObj, twoVectorAxes refObj
        (FrameVec.relativePosition refObj targetObj) 1
        (FrameVec.relativeVelocity refObj targetObj) 2⟩
  | CoordinateSystem.Chase =>
      ⟨refObj, twoVectorAxes refObj
        (FrameVec.relativeVelocity refObj refObj.parent) 1
        (FrameVec.relativePosition refObj refObj.parent) 2⟩
  | CoordinateSystem.PhaseLock_Old =>
      ⟨refObj, twoVectorAxes refObj
        (FrameVec.relativePosition refObj targetObj) 3
        (FrameVec.constantVector Vec3.unitY refObj) 2⟩
  | CoordinateSystem.Chase_Old =>
      ⟨refObj, twoVectorAxes refObj
        (FrameVec.relativeVelocity refObj.parent refObj) 3
        (FrameVec.constantVector Vec3.unitY refObj) 2⟩
  | CoordinateSystem.ObserverLocal => ⟨Sel.empty, fun _ => 1⟩
  | CoordinateSystem.Unknown => ⟨refObj, fun _ => 1⟩

/-- The default `ObserverFrame` constructor: the universal frame. -/
def ObserverFrame.default : ObserverFrame :=
  ⟨CoordinateSystem.Universal,
   ObserverFrame.createFrame CoordinateSystem.Universal Sel.empty Sel.empty,
   Sel.empty⟩

/-- The `ObserverFrame(cs, refObject, targetObject)` constructor. -/
def ObserverFrame.make (cs : CoordinateSystem) (refObj targetObj : Sel) :
    ObserverFrame :=
  ⟨cs, ObserverFrame.createFrame cs refObj targetObj, targetObj⟩

/-- `ObserverFrame::getRefObject`: the wrapped frame's center. -/
def ObserverFrame.getRefObject (f : ObserverFrame) : Sel := f.frame.getCenter

/-- `ObserverFrame::getCoordinateSystem`. -/
def ObserverFrame.getCoordinateSystem (f : ObserverFrame) : CoordinateSystem :=
  f.coordSys

/-- `ObserverFrame::getFrame`. -/
def ObserverFrame.getFrame (f : ObserverFrame) : ReferenceFrame := f.frame

/-- `ObserverFrame::convertFromUniversal` for positions. -/
def ObserverFrame.convertFromUniversal (f : ObserverFrame) (uc : UniversalCoord)
    (tjd : ℝ) : UniversalCoord :=
  f.frame.posFromUniversal uc tjd

/-- `ObserverFrame::convertToUniversal` for positions. -/
def ObserverFrame.convertToUniversal (f : ObserverFrame) (uc : UniversalCoord)
    (tjd : ℝ) : UniversalCoord :=
  f.frame.posToUniversal uc tjd

/-- `ObserverFrame::convertFromUniversal` for orientations. -/
def ObserverFrame.convertFromUniversalQ (f : ObserverFrame) (q : Quat) (tjd : ℝ) :
    Quat :=
  f.frame.oriFromUniversal q tjd

/-- `ObserverFrame::convertToUniversal` for orientations. -/
def ObserverFrame.convertToUniversalQ (f : ObserverFrame) (q : Quat) (tjd : ℝ) :
    Quat :=
  f.frame.oriToUniversal q tjd

/-- The static `ObserverFrame::convert` for positions: through the
universal frame as pivot. -/
def ObserverFrame.convert (fromFrame toFrame : ObserverFrame)
    (uc : UniversalCoord) (t : ℝ) : UniversalCoord :=
  toFrame.convertFromUniversal (fromFrame.convertToUniversal uc t) t

/-- The static `ObserverFrame::convert` for orientations. -/
def ObserverFrame.convertQ (fromFrame toFrame : ObserverFrame) (q : Quat) (t : ℝ) :
    Quat :=
  toFrame.convertFromUniversalQ (fromFrame.convertToUniversalQ q t) t

/-- `Observer::ObserverMode` (observer.h). -/
inductive ObserverMode where
  | Free | Travelling
deriving DecidableEq

/-- `Observer::TrajectoryType` (observer.h). -/
inductive TrajectoryType where
  | Linear | GreatCircle | CircularOrbit
deriving DecidableEq

/-- `Observer::JourneyParams` (observer.h).  The C++ fields `from` / `to`
are named `fromPos` / `toPos` because `from` is reserved in Lean. -/
structure JourneyParams where
  duration : ℝ
  startTime : ℝ
  fromPos : UniversalCoord
  toPos : UniversalCoord
  initialOrientation : Quat
  finalOrientation : Quat
  startInterpolation : ℝ
  endInterpolation : ℝ
  expFactor : ℝ
  accelTime : ℝ
  rotation1 : Quat
  centerObject : Sel
  traj : TrajectoryType

/-- A zero-initialized `JourneyParams`, standing for the
default-constructed member of a fresh `Observer`. -/
def JourneyParams.default : JourneyParams :=
  { duration := 0, startTime := 0, fromPos := 0, toPos := 0,
    initialOrientation := 1, finalOrientation := 1,
    startInterpolation := 0, endInterpolation := 0,
    expFactor := 0, accelTime := 0, rotation1 := 1,
    centerObject := Sel.empty, traj := TrajectoryType.Linear }

/-- The `Observer` state (observer.h).  `position` / `orientation` are in
the observer's reference frame; `positionUniv` / `orientationUniv` are
the universal-frame mirrors. -/
structure Observer where
  simTime : ℝ
  position : UniversalCoord
  orientation : Quat
  velocity : Vec3
  angularVelocity : Vec3
  positionUniv : UniversalCoord
  orientationUniv : Quat
  frame : ObserverFrame
  realTime : ℝ
  targetSpeed : ℝ
  targetVelocity : Vec3
  initialVelocity : Vec3
  beginAccelTime : ℝ
  observerMode : ObserverMode
  journey : JourneyParams
  trackObject : Sel
  trackingOrientation : Quat
  fov : ℝ
  reverseFlag : Bool

/-- The journey-duration / interpolation constants of observer.h. -/
def Observer.JourneyDuration : ℝ := 5.0

/-- `Observer::StartInterpolation` (observer.h). -/
def Observer.StartInterpolation : ℝ := 0.25

/-- `Observer::EndInterpolation` (observer.h). -/
def Observer.EndInterpolation : ℝ := 0.75

/-- `Observer::AccelerationTime` (observer.h). -/
def Observer.AccelerationTime : ℝ := 0.5

/-- `VELOCITY_CHANGE_TIME` (observer.cpp). -/
def VELOCITY_CHANGE_TIME : ℝ := 0.25

/-- `maximumSimTime` (observer.cpp). -/
def maximumSimTime : ℝ := 730486721060.00073

/-- `minimumSimTime` (observer.cpp). -/
def minimumSimTime : ℝ := -730498278941.99951

/-- `Observer::getTime`. -/
def Observer.getTime (o : Observer) : ℝ := o.simTime

/-- `Observer::getRealTime`. -/
def Observer.getRealTime (o : Observer) : ℝ := o.realTime

/-- `Observer::getPosition`: the universal position. -/
def Observer.getPosition (o : Observer) : UniversalCoord := o.positionUniv

/-- `Observer::getOrientation`: the universal orientation. -/
def Observer.getOrientation (o : Observer) : Quat := o.orientationUniv

/-- `Observer::getVelocity`: velocity in the observer's frame. -/
def Observer.getVelocity (o : Observer) : Vec3 := o.velocity

/-- `Observer::getMode`. -/
def Observer.getMode (o : Observer) : ObserverMode := o.observerMode

/-- `Observer::updateUniversal` (observer.cpp): convert the frame-local
position to universal; if out of bounds, keep the previous universal
position and recompute the frame-local position from it; the orientation
mirror is always resynchronized. -/
def Observer.updateUniversal (o : Observer) : Observer :=
  let newPositionUniv := o.frame.convertToUniversal o.position o.simTime
  if newPositionUniv.isOutOfBounds then
    { o with
      position := o.frame.convertFromUniversal o.positionUniv o.simTime,
      orientationUniv := o.frame.convertToUniversalQ o.orientation o.simTime }
  else
    { o with
      positionUniv := newPositionUniv,
      orientationUniv := o.frame.convertToUniversalQ o.orientation o.simTime }

/-- `Observer::setPosition(UniversalCoord)`. -/
def Observer.setPosition (o : Observer) (p : UniversalCoord) : Observer :=
  { o with
    positionUniv := p,
    position := o.frame.convertFromUniversal p o.getTime }

/-- `Observer::setOrientation(Quaterniond)`. -/
def Observer.setOrientation (o : Observer) (q : Quat) : Observer :=
  { o with
    orientationUniv := q,
    orientation := o.frame.convertFromUniversalQ q o.getTime }

/-- `Observer::setVelocity`. -/
def Observer.setVelocity (o : Observer) (v : Vec3) : Observer :=
  { o with velocity := v }

/-- The `Observer()` constructor: default members, the default universal
frame, then `updateUniversal`. -/
def Observer.init : Observer :=
  Observer.updateUniversal
    { simTime := 0, position := 0, orientation := 1, velocity := 0,
      angularVelocity := 0, positionUniv := 0, orientationUniv := 1,
      frame := ObserverFrame.default, realTime := 0, targetSpeed := 0,
      targetVelocity := 0, initialVelocity := 0, beginAccelTime := 0,
      observerMode := ObserverMode.Free, journey := JourneyParams.default,
      trackObject := Sel.empty, trackingOrientation := 1,
      fov := Real.pi / 4, reverseFlag := false }

/-- `Observer::convertFrameCoordinates`: re-express the frame-local state
and the journey endpoints in `newFrame`; the universal mirrors are left
untouched. -/
def Observer.convertFrameCoordinates (o : Observer) (newFrame : ObserverFrame) :
    Observer :=
  let now := o.getTime
  { o with
    position := newFrame.convertFromUniversal o.positionUniv now,
    orientation := newFrame.convertFromUniversalQ o.orientationUniv now,
    journey := { o.journey with
      fromPos := ObserverFrame.convert o.frame newFrame o.journey.fromPos now,
      initialOrientation :=
        ObserverFrame.convertQ o.frame newFrame o.journey.initialOrientation now,
      toPos := ObserverFrame.convert o.frame newFrame o.journey.toPos now,
      finalOrientation :=
        ObserverFrame.convertQ o.frame newFrame o.journey.finalOrientation now } }

/-- `Observer::setFrame(cs, refObj, targetObj)`. -/
def Observer.setFrameCS3 (o : Observer) (cs : CoordinateSystem)
    (refObj targetObj : Sel) : Observer :=
  let newFrame := ObserverFrame.make cs refObj targetObj
  { o.convertFrameCoordinates newFrame with frame := newFrame }

/-- `Observer::setFrame(cs, refObj)`. -/
def Observer.setFrameCS (o : Observer) (cs : CoordinateSystem) (refObj : Sel) :
    Observer :=
  o.setFrameCS3 cs refObj Sel.empty

/-- `Observer::setFrame(f)` with a prebuilt frame.  The C++ guard compares
shared-pointer identity; it is modelled as value equality of the frame. -/
def Observer.setFrameP (o : Observer) (f : ObserverFrame) : Observer :=
  if o.frame = f then o
  else { o.convertFrameCoordinates f with frame := f }

/-- `Observer::orbit`: rotate position and orientation about the
reference object (adopting the passed selection as reference if none is
set), renormalizing the radial distance to its previous value. -/
def Observer.orbit (o0 : Observer) (selection : Sel) (q : Quat) : Observer :=
  let center0 := o0.frame.getRefObject
  let o := if center0.isEmpty && !selection.isEmpty
    then o0.setFrameCS o0.frame.getCoordinateSystem selection else o0
  let center := if center0.isEmpty && !selection.isEmpty then selection else center0
  if center.isEmpty then o
  else
    let focusPosition :=
      o.frame.convertFromUniversal (center.getPosition o.getTime) o.getTime
    let v := o.position.offsetFromKm focusPosition
    let qd := q
    let qd2 := qnormalize (star o.orientation * qd * o.orientation)
    let distance := v.norm
    let v1 := qrotE (star qd2) v
    let v2 := distance • v1.normalized
    Observer.updateUniversal
      { o with
        orientation := o.orientation * qd2,
        position := focusPosition.offsetKm v2 }

/-- The time-warp profile of the Linear/GreatCircle trajectories (the
block computing `x` in `Observer::update`): exponential acceleration
while `u` is below the acceleration fraction `s`, then the linear
continuation. -/
def journeyWarp (k s u : ℝ) : ℝ :=
  if u < s then Real.exp (k * u) - 1
  else Real.exp (k * s) * (k * (u - s) + 1) - 1

/-- The mirrored profile parameter of `Observer::update`:
`u = t < 0.5 ? 2 t : 2 (1 - t)`. -/
def journeyU (t : ℝ) : ℝ := if t < 0.5 then t * 2 else (1 - t) * 2

/-- The static vector `slerp` of observer.cpp (lines 31-46). -/
def vslerp (t : ℝ) (v0 v1 : Vec3) : Vec3 :=
  let r0 := v0.norm
  let r1 := v1.norm
  let u := (1 / r0) • v0
  let n := (u.cross ((1 / r1) • v1)).normalized
  let v' := n.cross u
  let v := if Vec3.dot v' v1 < 0 then -v' else v'
  let cosTheta := Vec3.dot u ((1 / r1) • v1)
  let theta := Real.arccos cosTheta
  (lerp t r0 r1) • (Real.cos (theta * t) • u + Real.sin (theta * t) • v)

/-- The great-circle center resolution of `Observer::update` (lines
314-325): a body belonging to a system is replaced by the system's
primary body, or its star (folded into the selection's `sysCenter`
field). -/
def gcCenter : Sel → Sel
  | Sel.body _ _ _ _ (some c) _ _ _ => c
  | s => s

/-- Modelled from the spec: `LookAt` of celmath/geomutil.h (not among the
staged sources): the orientation whose -z axis points from `source`
toward `target` with y approximating `up`.  No claim settled here
inspects its value, so it is modelled as a fixed function of its
arguments. -/
def lookAt (_source _target _up : Vec3) : Quat := 1

/-- The `Travelling` branch of `Observer::update` (lines 266-421),
operating on a state whose `realTime` / `simTime` were already advanced:
compute the journey progress, the trajectory position, the interpolated
orientation, and on completion snap to the destination and return to
`Free` mode with zero velocity. -/
def Observer.journeyTick (o : Observer) : Observer :=
  let t : ℝ :=
    if 0 < o.journey.duration
    then clamp ((o.realTime - o.journey.startTime) / o.journey.duration) 0 1
    else 1
  let jv := o.journey.toPos.offsetFromKm o.journey.fromPos
  let u := journeyU t
  let x := journeyWarp o.journey.expFactor o.journey.accelTime u
  let p : UniversalCoord :=
    if o.journey.traj = TrajectoryType.Linear then
      if jv.norm = 0 then o.journey.fromPos
      else
        let v := jv.normalized
        if t < 0.5 then o.journey.fromPos.offsetKm (x • v)
        else o.journey.toPos.offsetKm ((-x) • v)
    else if o.journey.traj = TrajectoryType.GreatCircle then
      let centerObj := gcCenter o.frame.getRefObject
      let ufrom := o.frame.convertToUniversal o.journey.fromPos o.simTime
      let uto := o.frame.convertToUniversal o.journey.toPos o.simTime
      let origin := centerObj.getPosition o.simTime
      let v0 := ufrom.offsetFromKm origin
      let v1 := uto.offsetFromKm origin
      if jv.norm = 0 then o.journey.fromPos
      else
        let x' := x / jv.norm
        let v := if t < 0.5 then vslerp x' v0 v1 else vslerp x' v1 v0
        o.frame.convertFromUniversal (origin.offsetKm v) o.simTime
    else
      let centerObj := o.frame.getRefObject
      let ufrom := o.frame.convertToUniversal o.journey.fromPos o.simTime
      let origin := centerObj.getPosition o.simTime
      let v0 := ufrom.offsetFromKm origin
      if jv.norm = 0 then o.journey.fromPos
      else
        let q1 := o.journey.rotation1
        o.frame.convertFromUniversal
          (origin.offsetKm (qrotE (star (qslerp t 1 q1)) v0)) o.simTime
  let q : Quat :=
    if o.journey.startInterpolation ≤ t ∧ t < o.journey.endInterpolation then
      let v :=
        if o.journey.traj = TrajectoryType.CircularOrbit then t
        else
          Real.sin ((t - o.journey.startInterpolation) /
              (o.journey.endInterpolation - o.journey.startInterpolation) *
              (Real.pi / 2)) ^ 2
      qslerp v o.journey.initialOrientation o.journey.finalOrientation
    else if t < o.journey.startInterpolation then o.journey.initialOrientation
    else o.journey.finalOrientation
  let o1 := { o with position := p, orientation := q }
  if t = 1 then
    let o2 :=
      if o.journey.traj ≠ TrajectoryType.CircularOrbit
      then { o1 with position := o.journey.toPos,
                     orientation := o.journey.finalOrientation }
      else o1
    { o2 with observerMode := ObserverMode.Free, velocity := 0 }
  else o1

/-- The manual velocity-ramp block of `Observer::update` (lines
424-434). -/
def Observer.velocityRamp (o : Observer) : Observer :=
  if o.getVelocity = o.targetVelocity then o
  else
    let t := clamp ((o.realTime - o.beginAccelTime) / VELOCITY_CHANGE_TIME) 0 1
    let v := (1 - t) • o.getVelocity + t • o.targetVelocity
    let v := if v.norm < 1e-12 then 0 else v
    o.setVelocity v

/-- The free-mode first-order orientation integration of
`Observer::update` (lines 439-446). -/
def Observer.freeRotate (o : Observer) (dt : ℝ) : Observer :=
  if o.observerMode = ObserverMode.Free then
    let halfAV := (0.5 : ℝ) • o.angularVelocity
    let dr : Quat := (Vec3.toQuat halfAV) * o.orientation
    { o with orientation := qnormalize (o.orientation + dt • dr) }
  else o

/-- The tracked-object re-orientation step of `Observer::update` (lines
452-458); runs after `updateUniversal`. -/
def Observer.trackStep (o : Observer) : Observer :=
  if o.trackObject.isEmpty then o
  else
    let up := qrotE (star o.getOrientation) Vec3.unitY
    let viewDir :=
      ((o.trackObject.getPosition o.getTime).offsetFromKm o.getPosition).normalized
    o.setOrientation (lookAt 0 viewDir up)

/-- The simulation-time advance and clamp at the top of
`Observer::update` (observer.cpp lines 259-264). -/
def advancedSimTime (o0 : Observer) (dt timeScale : ℝ) : ℝ :=
  let s1 := o0.simTime + (dt / 86400.0) * timeScale
  let s2 := if maximumSimTime ≤ s1 then maximumSimTime else s1
  if s2 ≤ minimumSimTime then minimumSimTime else s2

/-- `Observer::update(dt, timeScale)` (observer.cpp lines 256-459):
advance the clocks (clamping the simulation time), run the journey step
when travelling, ramp the manual velocity, integrate position, integrate
orientation in free mode, resynchronize the universal mirrors, and
re-orient toward a tracked object. -/
def Observer.update (o0 : Observer) (dt timeScale : ℝ) : Observer :=
  let o := { o0 with realTime := o0.realTime + dt,
                     simTime := advancedSimTime o0 dt timeScale }
  let o := if o.observerMode = ObserverMode.Travelling then o.journeyTick else o
  let o := o.velocityRamp
  let o := { o with position := o.position.offsetKm (dt • o.getVelocity) }
  let o := o.freeRotate dt
  let o := o.updateUniversal
  o.trackStep

/-- Modelled from the spec: the bisection root finder of celmath/solve.h
(not among the staged sources): "finds the root of a scalar function over
an interval to given tolerance".  `bisect` halves the bracket, keeping
the side where the (increasing) function changes sign, until the bracket
is within twice the tolerance or the iteration budget is exhausted, and
returns the bracket midpoint. -/
def bisect (f : ℝ → ℝ) (tol : ℝ) : ℕ → ℝ → ℝ → ℝ
  | 0, lo, hi => (lo + hi) / 2
  | n + 1, lo, hi =>
      if hi - lo < 2 * tol then (lo + hi) / 2
      else if f ((lo + hi) / 2) < 0 then bisect f tol n ((lo + hi) / 2) hi
      else bisect f tol n lo ((lo + hi) / 2)

/-- Modelled from the spec: `solve_bisection(f, lo, hi, tol)` returns the
root approximation and the residual at it. -/
def solve_bisection (f : ℝ → ℝ) (lo hi tol : ℝ) : ℝ × ℝ :=
  let root := bisect f tol 100 lo hi
  (root, f root)

/-- `TravelExpFunc` (observer.cpp lines 506-517): the function whose root
calibrates the exponential acceleration factor:
`exp(x s) (x (1 - s) + 1) - 1 - dist`. -/
def TravelExpFunc (dist s : ℝ) (x : ℝ) : ℝ :=
  Real.exp (x * s) * (x * (1 - s) + 1) - 1 - dist

/-- Modelled from the spec: `astro::lightYearsToKilometers(1)`. -/
def astroKmPerLy : ℝ := 9460730472580.8

/-- Modelled from the spec: `astro::AUtoKilometers(1)`. -/
def astroKmPerAU : ℝ := 149597870.7

/-- `Selection::body() != nullptr`. -/
def Sel.isBody : Sel → Bool
  | Sel.body _ _ _ _ _ _ _ _ => true
  | _ => false

/-- `Selection::star() != nullptr`. -/
def Sel.isStar : Sel → Bool
  | Sel.star _ _ _ _ _ _ _ => true
  | _ => false

/-- `Selection::location() != nullptr`. -/
def Sel.isLocation : Sel → Bool
  | Sel.location _ _ _ => true
  | _ => false

/-- Modelled from the spec: the star of a body's planetary system
(`body->getSystem()->getStar()`), used by `phaseLock` when the selection
is the reference object itself.  Like `gcCenter` it reads the body's
`sysCenter` data; no claim settled here depends on its value. -/
def Sel.systemStar : Sel → Sel
  | Sel.body _ _ _ _ (some c) _ _ _ => c
  | _ => Sel.empty

/-- `getPreferredDistance` (observer.cpp lines 973-1030): the preferred
viewing distance for a selection. -/
def getPreferredDistance : Sel → ℝ
  | Sel.empty => 1.0
  | Sel.body _ r invisible frameTreeRadius _ _ _ _ =>
      if invisible then
        let r' := match frameTreeRadius with
          | some fr => fr
          | none => r
        min (astroKmPerLy * 0.1) (r' * 5.0)
      else 5.0 * r
  | Sel.deepSky _ r _ => 5.0 * r
  | Sel.star _ r visible orbitRadii _ _ _ =>
      if visible then 100.0 * r
      else
        let maxOrbitRadius : ℝ := match orbitRadii with
          | none => 0.0
          | some l => l.foldl
              (fun acc o => match o with
                | none => acc
                | some br => max acc br) 0.0
        if maxOrbitRadius = 0.0 then astroKmPerAU * 1.0 else maxOrbitRadius * 5.0
  | Sel.location _ size parentBody =>
      max (min (size * 50.0) (getPreferredDistance parentBody)) 1.0

/-- `getOrbitDistance` (observer.cpp lines 1035-1046): how close the next
goto should approach, given the current distance. -/
def getOrbitDistance (selection : Sel) (currentDistance : ℝ) : ℝ :=
  let maxDist := getPreferredDistance selection
  let minDist := 1.01 * selection.radius
  let dist := if maxDist * 10.0 < currentDistance then maxDist
              else currentDistance * 0.1
  max dist minDist

/-- `Observer::computeGotoParameters` (observer.cpp lines 520-590):
re-frame at the destination (Ecliptical if currently phase-locked),
compute the journey endpoints and orientations in universal coordinates,
calibrate the exponential factor by bisection, and convert the journey to
frame coordinates.  Returns the mutated observer (the `setFrame` effect)
and the journey written through the out-parameter. -/
def Observer.computeGotoParameters (o0 : Observer) (destination : Sel)
    (gotoTime startInter endInter accelTime : ℝ) (offset : Vec3)
    (offsetCoordSys : CoordinateSystem) (up : Vec3)
    (upCoordSys : CoordinateSystem) : Observer × JourneyParams :=
  let o := if o0.frame.getCoordinateSystem = CoordinateSystem.PhaseLock
    then o0.setFrameCS CoordinateSystem.Ecliptical destination
    else o0.setFrameCS o0.frame.getCoordinateSystem destination
  let targetPosition := destination.getPosition o.getTime
  let fromU := o.getPosition
  let toU :=
    if offsetCoordSys = CoordinateSystem.ObserverLocal then
      targetPosition.offsetKm (qrotE (star o.orientationUniv) offset)
    else
      let offsetFrame := ObserverFrame.make offsetCoordSys destination Sel.empty
      targetPosition.offsetKm
        (qrotE (star (offsetFrame.getFrame.getOrientation o.getTime)) offset)
  let upd :=
    if upCoordSys = CoordinateSystem.ObserverLocal then
      qrotE (star o.orientationUniv) up
    else
      let upFrame := ObserverFrame.make upCoordSys destination Sel.empty
      qrotE (star (upFrame.getFrame.getOrientation o.getTime)) up
  let focus := targetPosition.offsetFromKm toU
  let distance := (fromU.offsetFromKm toU).norm / 2.0
  let sol := solve_bisection (TravelExpFunc distance accelTime) 0.0001 100.0 1e-10
  let jparams : JourneyParams :=
    { o.journey with
      traj := TrajectoryType.Linear,
      duration := gotoTime,
      startTime := o.realTime,
      fromPos := o.frame.convertFromUniversal fromU o.getTime,
      toPos := o.frame.convertFromUniversal toU o.getTime,
      initialOrientation := o.frame.convertFromUniversalQ o.getOrientation o.getTime,
      finalOrientation := o.frame.convertFromUniversalQ (lookAt 0 focus upd) o.getTime,
      startInterpolation := min startInter endInter,
      endInterpolation := max startInter endInter,
      accelTime := accelTime,
      expFactor := sol.1 }
  (o, jparams)

/-- `Observer::computeGotoParametersGC` (observer.cpp lines 593-650):
like `computeGotoParameters` but keeps the coordinate-system tag,
records the center object and uses the great-circle trajectory with the
default interpolation window and acceleration time. -/
def Observer.computeGotoParametersGC (o0 : Observer) (destination : Sel)
    (gotoTime : ℝ) (offset : Vec3) (offsetCoordSys : CoordinateSystem)
    (up : Vec3) (upCoordSys : CoordinateSystem) (centerObj : Sel) :
    Observer × JourneyParams :=
  let o := o0.setFrameCS o0.frame.getCoordinateSystem destination
  let targetPosition := destination.getPosition o.getTime
  let fromU := o.getPosition
  let offsetFrame := ObserverFrame.make offsetCoordSys destination Sel.empty
  let offsetTransformed :=
    qrotE (star (offsetFrame.getFrame.getOrientation o.getTime)) offset
  let toU := targetPosition.offsetKm offsetTransformed
  let upd :=
    if upCoordSys = CoordinateSystem.ObserverLocal then
      qrotE (star o.orientationUniv) up
    else
      let upFrame := ObserverFrame.make upCoordSys destination Sel.empty
      qrotE (star (upFrame.getFrame.getOrientation o.getTime)) up
  let focus := targetPosition.offsetFromKm toU
  let distance := (fromU.offsetFromKm toU).norm / 2.0
  let sol := solve_bisection (TravelExpFunc distance Observer.AccelerationTime)
    0.0001 100.0 1e-10
  let jparams : JourneyParams :=
    { o.journey with
      traj := TrajectoryType.GreatCircle,
      duration := gotoTime,
      startTime := o.realTime,
      centerObject := centerObj,
      fromPos := o.frame.convertFromUniversal fromU o.getTime,
      toPos := o.frame.convertFromUniversal toU o.getTime,
      initialOrientation := o.frame.convertFromUniversalQ o.getOrientation o.getTime,
      finalOrientation := o.frame.convertFromUniversalQ (lookAt 0 focus upd) o.getTime,
      startInterpolation := min Observer.StartInterpolation Observer.EndInterpolation,
      endInterpolation := max Observer.StartInterpolation Observer.EndInterpolation,
      accelTime := Observer.AccelerationTime,
      expFactor := sol.1 }
  (o, jparams)

/-- `Observer::computeCenterParameters` (observer.cpp lines 653-683):
re-aim without moving: both endpoints are the current position and only
the orientation interpolates, over the window [0, 1]. -/
def Observer.computeCenterParameters (o : Observer) (destination : Sel)
    (centerTime : ℝ) : JourneyParams :=
  let targetPosition := destination.getPosition o.getTime
  let fromU := o.getPosition
  let toU := fromU
  let up := qrotE (star o.getOrientation) Vec3.unitY
  let focus := targetPosition.offsetFromKm toU
  { o.journey with
    duration := centerTime,
    startTime := o.realTime,
    traj := TrajectoryType.Linear,
    fromPos := o.frame.convertFromUniversal fromU o.getTime,
    toPos := o.frame.convertFromUniversal toU o.getTime,
    initialOrientation := o.frame.convertFromUniversalQ o.getOrientation o.getTime,
    finalOrientation := o.frame.convertFromUniversalQ (lookAt 0 focus up) o.getTime,
    startInterpolation := 0,
    endInterpolation := 1,
    accelTime := 0.5,
    expFactor := 0 }

/-- Modelled from the spec: Eigen's `Quaterniond::setFromTwoVectors`,
the rotation mapping direction `a` to direction `b`; no claim settled
here inspects its value. -/
def setFromTwoVectors (a b : Vec3) : Quat :=
  qnormalize
    ⟨Real.sqrt (a.normSq * b.normSq) + a.dot b,
     (a.cross b).x, (a.cross b).y, (a.cross b).z⟩

/-- `Observer::computeCenterCOParameters` (observer.cpp lines 686-722):
center the selection by a circular orbit around the reference object. -/
def Observer.computeCenterCOParameters (o : Observer) (destination : Sel)
    (centerTime : ℝ) : JourneyParams :=
  let v := ((destination.getPosition o.getTime).offsetFromKm o.getPosition).normalized
  let w := qrotE (star o.getOrientation) (-Vec3.unitZ)
  let centerObj := o.frame.getRefObject
  let centerPos := centerObj.getPosition o.getTime
  let q := setFromTwoVectors v w
  let fromU := o.getPosition
  let toU := centerPos.offsetKm (qrotE (star q) (o.getPosition.offsetFromKm centerPos))
  { o.journey with
    duration := centerTime,
    startTime := o.realTime,
    traj := TrajectoryType.CircularOrbit,
    centerObject := o.frame.getRefObject,
    expFactor := 0.5,
    fromPos := o.frame.convertFromUniversal fromU o.getTime,
    toPos := o.frame.convertFromUniversal toU o.getTime,
    initialOrientation := o.frame.convertFromUniversalQ o.getOrientation o.getTime,
    finalOrientation := o.frame.convertFromUniversalQ (o.getOrientation * q) o.getTime,
    startInterpolation := 0,
    endInterpolation := 1,
    rotation1 := q }

/-- `Observer::centerSelectionCO` (observer.cpp lines 728-735). -/
def Observer.centerSelectionCO (o : Observer) (selection : Sel)
    (centerTime : ℝ) : Observer :=
  if !selection.isEmpty && !o.frame.getRefObject.isEmpty then
    { o with journey := o.computeCenterCOParameters selection centerTime,
             observerMode := ObserverMode.Travelling }
  else o

/-- `Observer::gotoJourney` (observer.cpp lines 951-961): install a
caller-supplied journey, recalibrating its exponential factor and start
time. -/
def Observer.gotoJourney (o : Observer) (params : JourneyParams) : Observer :=
  let distance := (params.fromPos.offsetFromKm params.toPos).norm / 2.0
  let sol := solve_bisection (TravelExpFunc distance params.accelTime)
    0.0001 100.0 1e-10
  { o with
    journey := { params with expFactor := sol.1, startTime := o.realTime },
    observerMode := ObserverMode.Travelling }

/-- The seven-argument `Observer::gotoSelection` (observer.cpp lines
1049-1072): aim at the selection along the current line of sight, at the
computed orbit distance. -/
def Observer.gotoSelection7 (o : Observer) (selection : Sel)
    (gotoTime startInter endInter accelTime : ℝ) (up : Vec3)
    (upFrame : CoordinateSystem) : Observer :=
  if !selection.isEmpty then
    let pos := selection.getPosition o.getTime
    let v := pos.offsetFromKm o.getPosition
    let distance := v.norm
    let orbitDistance := getOrbitDistance selection distance
    let res := o.computeGotoParameters selection gotoTime startInter endInter
      accelTime ((-(orbitDistance / distance)) • v) CoordinateSystem.Universal
      up upFrame
    { res.1 with journey := res.2, observerMode := ObserverMode.Travelling }
  else o

/-- The four-argument `Observer::gotoSelection` (observer.cpp lines
963-969): delegates with interpolation window [0.0, 0.5] and the default
acceleration time. -/
def Observer.gotoSelection4 (o : Observer) (selection : Sel) (gotoTime : ℝ)
    (up : Vec3) (upFrame : CoordinateSystem) : Observer :=
  Observer.gotoSelection7 o selection gotoTime 0.0 0.5 Observer.AccelerationTime
    up upFrame

/-- `Observer::gotoSelectionGC` (observer.cpp lines 1079-1114): goto
following a great-circle trajectory around the selection's parent, with
the location-specific distance adjustment. -/
def Observer.gotoSelectionGC (o : Observer) (selection : Sel) (gotoTime : ℝ)
    (up : Vec3) (upFrame : CoordinateSystem) : Observer :=
  if !selection.isEmpty then
    let centerObj := selection.parent
    let pos := selection.getPosition o.getTime
    let v := pos.offsetFromKm (centerObj.getPosition o.getTime)
    let distanceToCenter := v.norm
    let viewVec := pos.offsetFromKm o.getPosition
    let orbitDistance0 := getOrbitDistance selection viewVec.norm
    let orbitDistance :=
      if selection.isLocation then
        let parent := selection.parent
        let maintainDist := getPreferredDistance parent
        let parentPos := (parent.getPosition o.getTime).offsetFromKm o.getPosition
        let parentDist := parentPos.norm - parent.radius
        if parentDist ≤ maintainDist ∧ orbitDistance0 < parentDist
        then parentDist else orbitDistance0
      else orbitDistance0
    let res := o.computeGotoParametersGC selection gotoTime
      ((orbitDistance / distanceToCenter) • v) CoordinateSystem.Universal
      up upFrame centerObj
    { res.1 with journey := res.2, observerMode := ObserverMode.Travelling }
  else o

/-- The explicit-distance `Observer::gotoSelection` (observer.cpp lines
1117-1139): the destination lies the given distance along the line of
sight. -/
def Observer.gotoSelectionDistance (o : Observer) (selection : Sel)
    (gotoTime distance : ℝ) (up : Vec3) (upFrame : CoordinateSystem) : Observer :=
  if !selection.isEmpty then
    let pos := selection.getPosition o.getTime
    let v := (pos.offsetFromKm o.getPosition).normalized
    let res := o.computeGotoParameters selection gotoTime
      Observer.StartInterpolation Observer.EndInterpolation
      Observer.AccelerationTime ((-distance) • v) CoordinateSystem.Universal
      up upFrame
    { res.1 with journey := res.2, observerMode := ObserverMode.Travelling }
  else o

/-- The explicit-distance `Observer::gotoSelectionGC` (observer.cpp lines
1142-1164): the destination lies along the line extended from the center
object through the target. -/
def Observer.gotoSelectionGCDistance (o : Observer) (selection : Sel)
    (gotoTime distance : ℝ) (up : Vec3) (upFrame : CoordinateSystem) : Observer :=
  if !selection.isEmpty then
    let centerObj := selection.parent
    let pos := selection.getPosition o.getTime
    let v := (pos.offsetFromKm (centerObj.getPosition o.getTime)).normalized
    let res := o.computeGotoParametersGC selection gotoTime
      ((-distance) • v) CoordinateSystem.Universal up upFrame centerObj
    { res.1 with journey := res.2, observerMode := ObserverMode.Travelling }
  else o

/-- `Observer::gotoSelectionLongLat` (observer.cpp lines 1174-1197):
travel to planetocentric coordinates of the selection. -/
def Observer.gotoSelectionLongLat (o : Observer) (selection : Sel)
    (gotoTime distance longitude latitude : ℝ) (up : Vec3) : Observer :=
  if !selection.isEmpty then
    let phi := -latitude + Real.pi / 2
    let theta := longitude
    let xc := Real.cos theta * Real.sin phi
    let yc := Real.cos phi
    let zc := -Real.sin theta * Real.sin phi
    let res := o.computeGotoParameters selection gotoTime
      Observer.StartInterpolation Observer.EndInterpolation
      Observer.AccelerationTime (distance • (Vec3.mk xc yc zc))
      CoordinateSystem.BodyFixed up CoordinateSystem.BodyFixed
    { res.1 with journey := res.2, observerMode := ObserverMode.Travelling }
  else o

/-- `Observer::gotoLocation` (observer.cpp lines 1200-1223): travel to an
explicit frame-local position and orientation. -/
def Observer.gotoLocation (o : Observer) (toPosition : UniversalCoord)
    (toOrientation : Quat) (duration : ℝ) : Observer :=
  let fromPos := o.position
  let initialOrientation := o.orientation
  let distance := (fromPos.offsetFromKm toPosition).norm / 2.0
  let sol := solve_bisection (TravelExpFunc distance Observer.AccelerationTime)
    0.0001 100.0 1e-10
  { o with
    journey := { o.journey with
      startTime := o.realTime,
      duration := duration,
      fromPos := fromPos,
      initialOrientation := initialOrientation,
      toPos := toPosition,
      finalOrientation := toOrientation,
      startInterpolation := Observer.StartInterpolation,
      endInterpolation := Observer.EndInterpolation,
      accelTime := Observer.AccelerationTime,
      expFactor := sol.1 },
    observerMode := ObserverMode.Travelling }

/-- `Observer::gotoSurface` (observer.cpp lines 1250-1272): travel to a
point just above the selection's surface, in its body-fixed frame. -/
def Observer.gotoSurface (o : Observer) (sel : Sel) (duration : ℝ) : Observer :=
  let v := (o.getPosition.offsetFromKm (sel.getPosition o.getTime)).normalized
  let viewDir := qrotE (star o.orientationUniv) (-Vec3.unitZ)
  let up := qrotE (star o.orientationUniv) Vec3.unitY
  let q := if Vec3.dot v viewDir < 0 then lookAt 0 up v else o.orientationUniv
  let bfFrame := ObserverFrame.make CoordinateSystem.BodyFixed sel Sel.empty
  let bfPos := bfFrame.convertFromUniversal o.positionUniv o.getTime
  let q' := bfFrame.convertFromUniversalQ q o.getTime
  let height := 1.0001 * sel.radius
  let dir := height • (bfPos.offsetFromKm UniversalCoord.zero).normalized
  let nearSurfacePoint := UniversalCoord.zero.offsetKm dir
  o.gotoLocation nearSurfacePoint q' duration

/-- `Observer::cancelMotion` (observer.cpp lines 1275-1278). -/
def Observer.cancelMotion (o : Observer) : Observer :=
  { o with observerMode := ObserverMode.Free }

/-- `Observer::centerSelection` (observer.cpp lines 1281-1288). -/
def Observer.centerSelection (o : Observer) (selection : Sel) (centerTime : ℝ) :
    Observer :=
  if !selection.isEmpty then
    { o with journey := o.computeCenterParameters selection centerTime,
             observerMode := ObserverMode.Travelling }
  else o

/-- `Observer::follow` (observer.cpp lines 1291-1294). -/
def Observer.follow (o : Observer) (selection : Sel) : Observer :=
  o.setFrameCS CoordinateSystem.Ecliptical selection

/-- `Observer::geosynchronousFollow` (observer.cpp lines 1297-1305). -/
def Observer.geosynchronousFollow (o : Observer) (selection : Sel) : Observer :=
  if selection.isBody || selection.isLocation || selection.isStar then
    o.setFrameCS CoordinateSystem.BodyFixed selection
  else o

/-- `Observer::phaseLock` (observer.cpp lines 1308-1328). -/
def Observer.phaseLock (o : Observer) (selection : Sel) : Observer :=
  let refObject := o.frame.getRefObject
  if selection ≠ refObject then
    if refObject.isBody || refObject.isStar then
      o.setFrameCS3 CoordinateSystem.PhaseLock refObject selection
    else o
  else
    if selection.isBody then
      o.setFrameCS3 CoordinateSystem.PhaseLock selection selection.systemStar
    else o

/-- `Observer::chase` (observer.cpp lines 1331-1337). -/
def Observer.chase (o : Observer) (selection : Sel) : Observer :=
  if selection.isBody || selection.isStar then
    o.setFrameCS CoordinateSystem.Chase selection
  else o

@[simp] theorem rotAct_one (v : Vec3) : rotAct 1 v = v := by
  simp [rotAct]

theorem ObserverFrame.roundTripP (f : ObserverFrame) (p : UniversalCoord) (t : ℝ) :
    f.convertToUniversal (f.convertFromUniversal p t) t = p :=
  ReferenceFrame.pos_roundTrip' f.frame p t

theorem ObserverFrame.roundTripP' (f : ObserverFrame) (p : UniversalCoord) (t : ℝ) :
    f.convertFromUniversal (f.convertToUniversal p t) t = p :=
  ReferenceFrame.pos_roundTrip f.frame p t

theorem ObserverFrame.roundTripQ (f : ObserverFrame) (q : Quat) (t : ℝ) :
    f.convertToUniversalQ (f.convertFromUniversalQ q t) t = q :=
  ReferenceFrame.ori_roundTrip' f.frame q t

theorem ObserverFrame.roundTripQ' (f : ObserverFrame) (q : Quat) (t : ℝ) :
    f.convertFromUniversalQ (f.convertToUniversalQ q t) t = q :=
  ReferenceFrame.ori_roundTrip f.frame q t

/-- The universal-consistency relation between the frame-local state and
its universal mirrors. -/
def Observer.consistent (o : Observer) : Prop :=
  o.frame.convertToUniversal o.position o.simTime = o.positionUniv ∧
  o.frame.convertToUniversalQ o.orientation o.simTime = o.orientationUniv

theorem Observer.consistent_updateUniversal (o : Observer) :
    o.updateUniversal.consistent := by
  unfold Observer.updateUniversal Observer.consistent
  by_cases h : (o.frame.convertToUniversal o.position o.simTime).isOutOfBounds
  · simp only [h, if_true]
    refine ⟨ObserverFrame.roundTripP _ _ _, ?_⟩
    trivial
  · simp only [h, if_false]
    exact ⟨trivial, trivial⟩

theorem Observer.consistent_setPosition (o : Observer) (p : UniversalCoord)
    (h : o.consistent) : (o.setPosition p).consistent := by
  unfold Observer.setPosition Observer.consistent Observer.getTime
  exact ⟨ObserverFrame.roundTripP _ _ _, h.2⟩

theorem Observer.consistent_setOrientation (o : Observer) (q : Quat)
    (h : o.consistent) : (o.setOrientation q).consistent := by
  unfold Observer.setOrientation Observer.consistent Observer.getTime
  exact ⟨h.1, ObserverFrame.roundTripQ _ _ _⟩

theorem Observer.consistent_convertFrame (o : Observer) (f : ObserverFrame) :
    ({ o.convertFrameCoordinates f with frame := f } : Observer).consistent := by
  unfold Observer.convertFrameCoordinates Observer.consistent Observer.getTime
  exact ⟨ObserverFrame.roundTripP _ _ _, ObserverFrame.roundTripQ _ _ _⟩

theorem Observer.consistent_setFrameCS3 (o : Observer) (cs : CoordinateSystem)
    (refObj targetObj : Sel) : (o.setFrameCS3 cs refObj targetObj).consistent := by
  unfold Observer.setFrameCS3
  exact Observer.consistent_convertFrame o _

theorem Observer.consistent_setFrameP (o : Observer) (f : ObserverFrame)
    (h : o.consistent) : (o.setFrameP f).consistent := by
  unfold Observer.setFrameP
  split
  · exact h
  · exact Observer.consistent_convertFrame o f

theorem Observer.consistent_trackStep (o : Observer) (h : o.consistent) :
    o.trackStep.consistent := by
  unfold Observer.trackStep
  split
  · exact h
  · exact Observer.consistent_setOrientation _ _ h

theorem Observer.consistent_update (o : Observer) (dt timeScale : ℝ) :
    (o.update dt timeScale).consistent := by
  unfold Observer.update
  exact Observer.consistent_trackStep _ (Observer.consistent_updateUniversal _)

theorem Observer.consistent_init : Observer.init.consistent :=
  Observer.consistent_updateUniversal _

/-- The mutating observer calls quantified over by the
universal-consistency claim: `setPosition`, `setOrientation`, `update`,
and the `setFrame` overloads. -/
inductive ObsOp where
  | setPos (p : UniversalCoord) : ObsOp
  | setOri (q : Quat) : ObsOp
  | upd (dt timeScale : ℝ) : ObsOp
  | setFrame3 (cs : CoordinateSystem) (refObj targetObj : Sel) : ObsOp
  | setFramePtr (f : ObserverFrame) : ObsOp

/-- Apply one observer call. -/
def applyOp (o : Observer) : ObsOp → Observer
  | ObsOp.setPos p => o.setPosition p
  | ObsOp.setOri q => o.setOrientation q
  | ObsOp.upd dt ts => o.update dt ts
  | ObsOp.setFrame3 cs r tg => o.setFrameCS3 cs r tg
  | ObsOp.setFramePtr f => o.setFrameP f

theorem Observer.consistent_applyOp (o : Observer) (op : ObsOp)
    (h : o.consistent) : (applyOp o op).consistent := by
  cases op with
  | setPos p => exact o.consistent_setPosition p h
  | setOri q => exact o.consistent_setOrientation q h
  | upd dt ts => exact o.consistent_update dt ts
  | setFrame3 cs r tg => exact o.consistent_setFrameCS3 cs r tg
  | setFramePtr f => exact o.consistent_setFrameP f h

theorem Observer.consistent_foldl (o : Observer) (ops : List ObsOp)
    (h : o.consistent) : (ops.foldl applyOp o).consistent := by
  induction ops generalizing o with
  | nil => exact h
  | cons op rest ih =>
      exact ih _ (o.consistent_applyOp op h)

/-- C1: after any sequence of setPosition / setOrientation / update /
setFrame calls on a freshly constructed observer, the frame-local
position and orientation convert to exactly the stored universal mirrors
(`frame.convertToUniversal position simTime = positionUniv`, likewise for
the orientation); and whenever the attempted universal position computed
by `updateUniversal` is out of bounds, `positionUniv` keeps its previous
value, the frame-local position is recomputed as
`frame.convertFromUniversal positionUniv simTime` exactly, and the
universal orientation is still resynchronized directly. -/
theorem observer_universal_consistency :
    (∀ ops : List ObsOp, (ops.foldl applyOp Observer.init).consistent) ∧
    (∀ o : Observer,
      (o.frame.convertToUniversal o.position o.simTime).isOutOfBounds →
        o.updateUniversal.positionUniv = o.positionUniv ∧
        o.updateUniversal.position
          = o.frame.convertFromUniversal o.positionUniv o.simTime ∧
        o.updateUniversal.orientationUniv
          = o.frame.convertToUniversalQ o.orientation o.simTime) := by
  constructor
  · intro ops
    exact Observer.consistent_foldl _ ops Observer.consistent_init
  · intro o h
    unfold Observer.updateUniversal
    rw [if_pos h]
    exact ⟨rfl, rfl, rfl⟩

@[simp] theorem Vec3.zero_add (v : Vec3) : (0 : Vec3) + v = v := by
  ext <;> simp

@[simp] theorem Vec3.add_zero (v : Vec3) : v + (0 : Vec3) = v := by
  ext <;> simp

@[simp] theorem Vec3.sub_zero (v : Vec3) : v - (0 : Vec3) = v := by
  ext <;> simp

@[simp] theorem Vec3.zero_sub (v : Vec3) : (0 : Vec3) - v = -v := by
  ext <;> simp

@[simp] theorem Vec3.smul_zero (c : ℝ) : c • (0 : Vec3) = 0 := by
  ext <;> simp

@[simp] theorem Vec3.zero_smul (v : Vec3) : (0 : ℝ) • v = 0 := by
  ext <;> simp

@[simp] theorem Vec3.toQuat_zero : (0 : Vec3).toQuat = 0 := by
  apply Quaternion.ext <;> simp [Vec3.toQuat]

@[simp] theorem Quaternion.vec3_zero : (0 : Quat).vec3 = 0 := by
  ext <;> simp [Quaternion.vec3]

@[simp] theorem rotAct_zero_vec (q : Quat) : rotAct q 0 = 0 := by
  unfold rotAct
  split
  · rfl
  · simp

/-- A concrete observer whose frame-local position converts out of
bounds: the default universal frame with an x-coordinate beyond the
representable limit. -/
def oobObserver : Observer :=
  { simTime := 0, position := ⟨2e32, 0, 0⟩, orientation := 1, velocity := 0,
    angularVelocity := 0, positionUniv := 0, orientationUniv := 1,
    frame := ObserverFrame.default, realTime := 0, targetSpeed := 0,
    targetVelocity := 0, initialVelocity := 0, beginAccelTime := 0,
    observerMode := ObserverMode.Free, journey := JourneyParams.default,
    trackObject := Sel.empty, trackingOrientation := 1,
    fov := Real.pi / 4, reverseFlag := false }

theorem oobObserver_oob :
    (oobObserver.frame.convertToUniversal oobObserver.position
      oobObserver.simTime).isOutOfBounds := by
  have : oobObserver.frame.convertToUniversal oobObserver.position oobObserver.simTime
      = ⟨2e32, 0, 0⟩ := by
    simp [oobObserver, ObserverFrame.default, ObserverFrame.createFrame,
      ObserverFrame.convertToUniversal, ReferenceFrame.posToUniversal,
      Sel.getPosition]
  rw [this]
  unfold UniversalCoord.isOutOfBounds universalCoordLimit
  left
  rw [abs_of_pos (by norm_num)]
  norm_num

/-- Witness for the out-of-bounds branch of the C1 theorem at a concrete
observer state. -/
theorem observer_universal_consistency_witness :
    (oobObserver.frame.convertToUniversal oobObserver.position
      oobObserver.simTime).isOutOfBounds ∧
    (oobObserver.updateUniversal.positionUniv = oobObserver.positionUniv ∧
     oobObserver.updateUniversal.position
       = oobObserver.frame.convertFromUniversal oobObserver.positionUniv
           oobObserver.simTime ∧
     oobObserver.updateUniversal.orientationUniv
       = oobObserver.frame.convertToUniversalQ oobObserver.orientation
           oobObserver.simTime) :=
  ⟨oobObserver_oob, observer_universal_consistency.2 oobObserver oobObserver_oob⟩

/-- Everything a `setFrame` call must leave unchanged: the universal
mirrors and every field other than the frame itself, the frame-local
position / orientation, and the frame-local journey endpoints. -/
def Observer.framelocalOnlyChanged (a b : Observer) : Prop :=
  a.positionUniv = b.positionUniv ∧ a.orientationUniv = b.orientationUniv ∧
  a.simTime = b.simTime ∧ a.realTime = b.realTime ∧
  a.velocity = b.velocity ∧ a.angularVelocity = b.angularVelocity ∧
  a.targetSpeed = b.targetSpeed ∧ a.targetVelocity = b.targetVelocity ∧
  a.initialVelocity = b.initialVelocity ∧ a.beginAccelTime = b.beginAccelTime ∧
  a.observerMode = b.observerMode ∧ a.trackObject = b.trackObject ∧
  a.trackingOrientation = b.trackingOrientation ∧ a.fov = b.fov ∧
  a.reverseFlag = b.reverseFlag ∧
  a.journey.duration = b.journey.duration ∧
  a.journey.startTime = b.journey.startTime ∧
  a.journey.startInterpolation = b.journey.startInterpolation ∧
  a.journey.endInterpolation = b.journey.endInterpolation ∧
  a.journey.expFactor = b.journey.expFactor ∧
  a.journey.accelTime = b.journey.accelTime ∧
  a.journey.rotation1 = b.journey.rotation1 ∧
  a.journey.centerObject = b.journey.centerObject ∧
  a.journey.traj = b.journey.traj

theorem Observer.framelocalOnlyChanged_refl (o : Observer) :
    o.framelocalOnlyChanged o :=
  ⟨rfl, rfl, rfl, rfl, rfl, rfl, rfl, rfl, rfl, rfl, rfl, rfl,
   rfl, rfl, rfl, rfl, rfl, rfl, rfl, rfl, rfl, rfl, rfl, rfl⟩

theorem Observer.framelocalOnlyChanged_setFrameCS3 (o : Observer)
    (cs : CoordinateSystem) (refObj targetObj : Sel) :
    (o.setFrameCS3 cs refObj targetObj).framelocalOnlyChanged o :=
  ⟨rfl, rfl, rfl, rfl, rfl, rfl, rfl, rfl, rfl, rfl, rfl, rfl,
   rfl, rfl, rfl, rfl, rfl, rfl, rfl, rfl, rfl, rfl, rfl, rfl⟩

theorem Observer.framelocalOnlyChanged_setFrameP (o : Observer)
    (f : ObserverFrame) : (o.setFrameP f).framelocalOnlyChanged o := by
  unfold Observer.setFrameP
  split
  · exact o.framelocalOnlyChanged_refl
  · exact ⟨rfl, rfl, rfl, rfl, rfl, rfl, rfl, rfl, rfl, rfl, rfl, rfl,
      rfl, rfl, rfl, rfl, rfl, rfl, rfl, rfl, rfl, rfl, rfl, rfl⟩

/-- C2: every `setFrame` overload leaves the universal position
`getPosition()` and universal orientation `getOrientation()` unchanged
for every observer state and every new frame; only the frame, the
frame-local position / orientation, and the frame-local journey
endpoints (`from`, `to`, `initialOrientation`, `finalOrientation`) are
recomputed — every other field is untouched. -/
theorem setFrame_preserves_universal (o : Observer) (cs : CoordinateSystem)
    (refObj targetObj : Sel) (f : ObserverFrame) :
    (o.setFrameCS3 cs refObj targetObj).getPosition = o.getPosition ∧
    (o.setFrameCS3 cs refObj targetObj).getOrientation = o.getOrientation ∧
    (o.setFrameCS3 cs refObj targetObj).framelocalOnlyChanged o ∧
    (o.setFrameCS cs refObj).getPosition = o.getPosition ∧
    (o.setFrameCS cs refObj).getOrientation = o.getOrientation ∧
    (o.setFrameCS cs refObj).framelocalOnlyChanged o ∧
    (o.setFrameP f).getPosition = o.getPosition ∧
    (o.setFrameP f).getOrientation = o.getOrientation ∧
    (o.setFrameP f).framelocalOnlyChanged o := by
  refine ⟨rfl, rfl, o.framelocalOnlyChanged_setFrameCS3 cs refObj targetObj,
    rfl, rfl, o.framelocalOnlyChanged_setFrameCS3 cs refObj Sel.empty,
    ?_, ?_, o.framelocalOnlyChanged_setFrameP f⟩
  · exact (o.framelocalOnlyChanged_setFrameP f).1
  · exact ((o.framelocalOnlyChanged_setFrameP f).2).1

/-- The time-warp profile exactly as the claim (C4) words it, for
comparison with the source's `journeyWarp`: `x(u) = exp(k·s·u) − 1` while
`u < s`, then the linear continuation matching that curve's value and
slope at `u = s`. -/
def journeyWarpSpec (k s u : ℝ) : ℝ :=
  if u < s then Real.exp (k * s * u) - 1
  else (Real.exp (k * s * s) - 1) + (k * s * Real.exp (k * s * s)) * (u - s)

/-- Counterexample to C4 as stated: at `k = 1`, `s = 1/2`, `u = 1/4` the
source profile is `exp(k·u) − 1 = exp(1/4) − 1`, not the claimed
`exp(k·s·u) − 1 = exp(1/8) − 1`. -/
theorem journeyWarp_spec_counterexample :
    journeyWarp 1 (1/2) (1/4) ≠ journeyWarpSpec 1 (1/2) (1/4) := by
  unfold journeyWarp journeyWarpSpec
  rw [if_pos (by norm_num : (1:ℝ)/4 < 1/2), if_pos (by norm_num : (1:ℝ)/4 < 1/2)]
  have h : Real.exp (1 * (1/2) * (1/4)) < Real.exp (1 * (1/4)) := by
    apply Real.exp_lt_exp.mpr
    norm_num
  intro he
  rw [sub_left_inj] at he
  exact absurd he (ne_of_gt h)

/-- C4 (amended): with `u = 2t` for `t < 0.5` and `u = 2(1−t)` otherwise,
the distance profile of the Linear trajectory is `x(u) = exp(k·u) − 1`
while `u < s` (not `exp(k·s·u) − 1` as the claim stated), and for
`u ≥ s` it is the linear continuation of that curve matching its value
`exp(k·s) − 1` and slope `k·exp(k·s)` at `u = s`; the slope is the true
derivative of the exponential branch there. -/
theorem journeyWarp_amended (k s u t : ℝ) :
    (u < s → journeyWarp k s u = Real.exp (k * u) - 1) ∧
    (s ≤ u → journeyWarp k s u
        = (Real.exp (k * s) - 1) + (k * Real.exp (k * s)) * (u - s)) ∧
    HasDerivAt (fun w => Real.exp (k * w) - 1) (k * Real.exp (k * s)) s ∧
    (t < 0.5 → journeyU t = 2 * t) ∧
    (0.5 ≤ t → journeyU t = 2 * (1 - t)) := by
  refine ⟨?_, ?_, ?_, ?_, ?_⟩
  · intro h
    unfold journeyWarp
    rw [if_pos h]
  · intro h
    unfold journeyWarp
    rw [if_neg (not_lt.mpr h)]
    ring
  · have h1 : HasDerivAt (fun w : ℝ => k * w) k s := by
      simpa using (hasDerivAt_id s).const_mul k
    have h2 := (Real.hasDerivAt_exp (k * s)).comp s h1
    have h3 := h2.sub_const 1
    convert h3 using 1
    ring
  · intro h
    unfold journeyU
    rw [if_pos h]
    ring
  · intro h
    unfold journeyU
    rw [if_neg (not_lt.mpr h)]
    ring

/-- Witness for the amended C4 theorem at concrete inputs on both sides
of the acceleration fraction. -/
theorem journeyWarp_amended_witness :
    ((1:ℝ)/4 < 1/2 ∧ journeyWarp 1 (1/2) (1/4) = Real.exp (1 * (1/4)) - 1) ∧
    ((1:ℝ)/2 ≤ 3/4 ∧ journeyWarp 1 (1/2) (3/4)
        = (Real.exp (1 * (1/2)) - 1) + (1 * Real.exp (1 * (1/2))) * (3/4 - 1/2)) ∧
    ((1:ℝ)/4 < 0.5 ∧ journeyU (1/4) = 2 * (1/4)) :=
  ⟨⟨by norm_num, (journeyWarp_amended 1 (1/2) (1/4) 0).1 (by norm_num)⟩,
   ⟨by norm_num, (journeyWarp_amended 1 (1/2) (3/4) 0).2.1 (by norm_num)⟩,
   ⟨by norm_num, (journeyWarp_amended 1 (1/2) 0 (1/4)).2.2.2.1 (by norm_num)⟩⟩

theorem bisect_mem (f : ℝ → ℝ) (tol : ℝ) :
    ∀ (n : ℕ) (lo hi : ℝ), lo ≤ hi →
      lo ≤ bisect f tol n lo hi ∧ bisect f tol n lo hi ≤ hi := by
  intro n
  induction n with
  | zero =>
      intro lo hi h
      unfold bisect
      constructor <;> linarith
  | succ n ih =>
      intro lo hi h
      unfold bisect
      split
      · constructor <;> linarith
      · split
        · have hrec := ih ((lo + hi) / 2) hi (by linarith)
          exact ⟨le_trans (by linarith) hrec.1, hrec.2⟩
        · have hrec := ih lo ((lo + hi) / 2) (by linarith)
          exact ⟨hrec.1, le_trans hrec.2 (by linarith)⟩

theorem bisect_bracket (f : ℝ → ℝ) (tol : ℝ) :
    ∀ (n : ℕ) (lo hi : ℝ), lo ≤ hi → f lo ≤ 0 → 0 ≤ f hi →
      ∃ a b, a ≤ bisect f tol n lo hi ∧ bisect f tol n lo hi ≤ b ∧
        f a ≤ 0 ∧ 0 ≤ f b ∧ b - a ≤ max (2 * tol) ((hi - lo) / 2 ^ n) := by
  intro n
  induction n with
  | zero =>
      intro lo hi h hflo hfhi
      refine ⟨lo, hi, ?_, ?_, hflo, hfhi, ?_⟩
      · unfold bisect; linarith
      · unfold bisect; linarith
      · have : (hi - lo) / 2 ^ (0 : ℕ) = hi - lo := by norm_num
        rw [this]
        exact le_max_right _ _
  | succ n ih =>
      intro lo hi h hflo hfhi
      unfold bisect
      split
      · next hw =>
          refine ⟨lo, hi, by linarith, by linarith, hflo, hfhi, ?_⟩
          exact le_trans (le_of_lt hw) (le_max_left _ _)
      · split
        · next hmid =>
            obtain ⟨a, b, h1, h2, h3, h4, h5⟩ :=
              ih ((lo + hi) / 2) hi (by linarith) (le_of_lt hmid) hfhi
            refine ⟨a, b, h1, h2, h3, h4, ?_⟩
            have : (hi - (lo + hi) / 2) / 2 ^ n = (hi - lo) / 2 ^ (n + 1) := by
              rw [pow_succ]
              ring
            rw [this] at h5
            exact h5
        · next hmid =>
            obtain ⟨a, b, h1, h2, h3, h4, h5⟩ :=
              ih lo ((lo + hi) / 2) (by linarith) hflo (le_of_not_lt hmid)
            refine ⟨a, b, h1, h2, h3, h4, ?_⟩
            have : ((lo + hi) / 2 - lo) / 2 ^ n = (hi - lo) / 2 ^ (n + 1) := by
              rw [pow_succ]
              ring
            rw [this] at h5
            exact h5

@[simp] theorem Vec3.toQuat_sub (u v : Vec3) :
    (u - v).toQuat = u.toQuat - v.toQuat := by
  apply Quaternion.ext <;> simp [Vec3.toQuat]

@[simp] theorem Quaternion.vec3_sub (a b : Quat) :
    (a - b).vec3 = a.vec3 - b.vec3 := by
  ext <;> simp [Quaternion.vec3]

theorem rotAct_sub (q : Quat) (u v : Vec3) :
    rotAct q u - rotAct q v = rotAct q (u - v) := by
  unfold rotAct
  split
  · rfl
  · rw [Vec3.toQuat_sub, ← Quaternion.vec3_sub]
    congr 1
    rw [mul_sub, sub_mul]

theorem Vec3.normSq_toQuat (v : Vec3) :
    Quaternion.normSq v.toQuat = v.normSq := by
  rw [Quaternion.normSq_def']
  simp [Vec3.toQuat, Vec3.normSq]

theorem normSq_vec3_of_pure (q : Quat) (h : q.re = 0) :
    q.vec3.normSq = Quaternion.normSq q := by
  rw [Quaternion.normSq_def']
  simp [Quaternion.vec3, Vec3.normSq, h]

theorem rotAct_norm (q : Quat) (v : Vec3) : (rotAct q v).norm = v.norm := by
  unfold rotAct
  split
  · rfl
  · next hq =>
      unfold Vec3.norm
      congr 1
      rw [normSq_vec3_of_pure _ (rotAct_pure q v hq)]
      rw [map_mul, map_mul, map_inv₀]
      have hns : Quaternion.normSq q ≠ 0 := by
        simpa [Quaternion.normSq_eq_zero] using hq
      rw [Vec3.normSq_toQuat]
      field_simp

theorem ObserverFrame.convertFromUniversal_dist (f : ObserverFrame)
    (p q : UniversalCoord) (t : ℝ) :
    ((f.convertFromUniversal p t).offsetFromKm (f.convertFromUniversal q t)).norm
      = (p.offsetFromKm q).norm := by
  unfold ObserverFrame.convertFromUniversal ReferenceFrame.posFromUniversal
    UniversalCoord.offsetFromKm
  rw [rotAct_sub, show p - f.frame.centerSel.getPosition t
      - (q - f.frame.centerSel.getPosition t) = p - q by ext <;> simp]
  exact rotAct_norm _ _

/-- A quiescent base observer state used for concrete runs: the default
universal frame, everything at the origin, free mode, zeroed journey. -/
def obs0 : Observer :=
  { simTime := 0, position := 0, orientation := 1, velocity := 0,
    angularVelocity := 0, positionUniv := 0, orientationUniv := 1,
    frame := ObserverFrame.default, realTime := 0, targetSpeed := 0,
    targetVelocity := 0, initialVelocity := 0, beginAccelTime := 0,
    observerMode := ObserverMode.Free, journey := JourneyParams.default,
    trackObject := Sel.empty, trackingOrientation := 1,
    fov := Real.pi / 4, reverseFlag := false }

/-- A journey whose exponential factor was calibrated by bisecting
`TravelExpFunc` at the journey's half trip distance and acceleration
fraction over [1e-4, 100] to tolerance 1e-10. -/
def JourneyParams.calibrated (j : JourneyParams) : Prop :=
  j.expFactor = (solve_bisection
    (TravelExpFunc ((j.fromPos.offsetFromKm j.toPos).norm / 2.0) j.accelTime)
    0.0001 100.0 1e-10).1

/-- C5 (amended): the `expFactor` installed by `gotoJourney`,
`gotoLocation`, `computeGotoParameters` and `computeGotoParametersGC` is
always the value obtained by bisecting
`exp(k·s)·(k·(1−s)+1) − 1 − d` over `k ∈ [1e-4, 100]` to tolerance
`1e-10`, with `d` the journey's half trip distance and `s` its
acceleration fraction; the returned `k` always lies in `[1e-4, 100]`,
and whenever the function changes sign across the bracket the returned
`k` lies inside a sign-change bracket of width at most `2·1e-10`.  The
originally claimed residual bound `|exp(k·s)(k(1−s)+1) − 1 − d| < 1e-8`
does not hold for every positive `d` (see the counterexample). -/
theorem expFactor_calibration_amended :
    (∀ (o : Observer) (params : JourneyParams),
      (o.gotoJourney params).journey.calibrated) ∧
    (∀ (o : Observer) (toPosition : UniversalCoord) (toOrientation : Quat)
        (duration : ℝ),
      (o.gotoLocation toPosition toOrientation duration).journey.calibrated) ∧
    (∀ (o : Observer) (destination : Sel)
        (gotoTime startInter endInter accelTime : ℝ) (offset : Vec3)
        (ocs : CoordinateSystem) (up : Vec3) (ucs : CoordinateSystem),
      (o.computeGotoParameters destination gotoTime startInter endInter
        accelTime offset ocs up ucs).2.calibrated) ∧
    (∀ (o : Observer) (destination : Sel) (gotoTime : ℝ) (offset : Vec3)
        (ocs : CoordinateSystem) (up : Vec3) (ucs : CoordinateSystem)
        (centerObj : Sel),
      (o.computeGotoParametersGC destination gotoTime offset ocs up ucs
        centerObj).2.calibrated) ∧
    (∀ d s : ℝ,
      0.0001 ≤ (solve_bisection (TravelExpFunc d s) 0.0001 100.0 1e-10).1 ∧
      (solve_bisection (TravelExpFunc d s) 0.0001 100.0 1e-10).1 ≤ 100 ∧
      (TravelExpFunc d s 0.0001 ≤ 0 → 0 ≤ TravelExpFunc d s 100.0 →
        ∃ a b, a ≤ (solve_bisection (TravelExpFunc d s) 0.0001 100.0 1e-10).1 ∧
          (solve_bisection (TravelExpFunc d s) 0.0001 100.0 1e-10).1 ≤ b ∧
          TravelExpFunc d s a ≤ 0 ∧ 0 ≤ TravelExpFunc d s b ∧
          b - a ≤ 2 * 1e-10)) := by
  refine ⟨?_, ?_, ?_, ?_, ?_⟩
  · intro o params
    rfl
  · intro o toPosition toOrientation duration
    rfl
  · intro o destination gotoTime startInter endInter accelTime offset ocs up ucs
    unfold Observer.computeGotoParameters JourneyParams.calibrated
    simp only []
    rw [ObserverFrame.convertFromUniversal_dist]
  · intro o destination gotoTime offset ocs up ucs centerObj
    unfold Observer.computeGotoParametersGC JourneyParams.calibrated
    simp only []
    rw [ObserverFrame.convertFromUniversal_dist]
  · intro d s
    have hm := bisect_mem (TravelExpFunc d s) 1e-10 100 0.0001 100.0 (by norm_num)
    refine ⟨hm.1, le_trans hm.2 (by norm_num), ?_⟩
    intro hlo hhi
    obtain ⟨a, b, h1, h2, h3, h4, h5⟩ :=
      bisect_bracket (TravelExpFunc d s) 1e-10 100 0.0001 100.0 (by norm_num)
        hlo hhi
    refine ⟨a, b, h1, h2, h3, h4, ?_⟩
    have hsmall : ((100.0 : ℝ) - 0.0001) / 2 ^ 100 ≤ 2 * 1e-10 := by norm_num
    calc b - a ≤ max (2 * 1e-10) ((100.0 - 0.0001) / 2 ^ 100) := h5
    _ ≤ 2 * 1e-10 := max_le le_rfl hsmall

/-- Witness for the amended C5 theorem: a concrete journey installed by
`gotoJourney`, and a concrete pair `(d, s) = (10, 1/2)` for which the
bracket really straddles the root. -/
theorem expFactor_calibration_amended_witness :
    (obs0.gotoJourney JourneyParams.default).journey.calibrated ∧
    (TravelExpFunc 10 (1/2) 0.0001 ≤ 0 ∧ 0 ≤ TravelExpFunc 10 (1/2) 100.0 ∧
      ∃ a b, a ≤ (solve_bisection (TravelExpFunc 10 (1/2)) 0.0001 100.0 1e-10).1 ∧
        (solve_bisection (TravelExpFunc 10 (1/2)) 0.0001 100.0 1e-10).1 ≤ b ∧
        TravelExpFunc 10 (1/2) a ≤ 0 ∧ 0 ≤ TravelExpFunc 10 (1/2) b ∧
        b - a ≤ 2 * 1e-10) := by
  have hlo : TravelExpFunc 10 (1/2) 0.0001 ≤ 0 := by
    unfold TravelExpFunc
    have h1 : Real.exp (0.0001 * (1/2)) ≤ Real.exp 1 :=
      Real.exp_le_exp.mpr (by norm_num)
    have h2 : Real.exp 1 ≤ 2.72 := by linarith [Real.exp_one_lt_d9]
    nlinarith [Real.exp_pos (0.0001 * (1/2))]
  have hhi : (0 : ℝ) ≤ TravelExpFunc 10 (1/2) 100.0 := by
    unfold TravelExpFunc
    have h1 : (100.0 : ℝ) * (1/2) + 1 ≤ Real.exp (100.0 * (1/2)) :=
      Real.add_one_le_exp _
    nlinarith
  exact ⟨expFactor_calibration_amended.1 obs0 JourneyParams.default,
    hlo, hhi, (expFactor_calibration_amended.2.2.2.2 10 (1/2)).2.2 hlo hhi⟩

/-- Counterexample to C5 as stated: for the journey installed by
`gotoLocation` from the origin to `(2e30, 0, 0)` km, the half trip
distance is `d = 1e30` and the acceleration fraction is `s = 0.5`, but
the residual of the produced `expFactor` is astronomically larger than
`1e-8`: the calibration function has no root in `[1e-4, 100]` there. -/
theorem expFactor_residual_counterexample :
    (obs0.gotoLocation ⟨2e30, 0, 0⟩ 1 5).journey.accelTime = 0.5 ∧
    (((obs0.gotoLocation ⟨2e30, 0, 0⟩ 1 5).journey.fromPos).offsetFromKm
        ((obs0.gotoLocation ⟨2e30, 0, 0⟩ 1 5).journey.toPos)).norm / 2.0 = 1e30 ∧
    ¬ |TravelExpFunc 1e30 0.5
        ((obs0.gotoLocation ⟨2e30, 0, 0⟩ 1 5).journey.expFactor)| < 1e-8 := by
  have hdist : ((obs0.position : UniversalCoord).offsetFromKm
      (⟨2e30, 0, 0⟩ : UniversalCoord)).norm / 2.0 = 1e30 := by
    show ((0 : Vec3) - ⟨2e30, 0, 0⟩).norm / 2.0 = 1e30
    rw [show (0 : Vec3) - (⟨2e30, 0, 0⟩ : Vec3) = ⟨-2e30, 0, 0⟩ by ext <;> simp]
    rw [Vec3.norm_axis]
    norm_num
  have hk : (obs0.gotoLocation ⟨2e30, 0, 0⟩ 1 5).journey.expFactor
      = (solve_bisection (TravelExpFunc 1e30 0.5) 0.0001 100.0 1e-10).1 := by
    unfold Observer.gotoLocation
    simp only []
    rw [show ((obs0.position : UniversalCoord).offsetFromKm
        (⟨2e30, 0, 0⟩ : UniversalCoord)).norm / 2.0 = 1e30 from hdist]
    rfl
  refine ⟨rfl, ?_, ?_⟩
  · show ((obs0.position : UniversalCoord).offsetFromKm
        (⟨2e30, 0, 0⟩ : UniversalCoord)).norm / 2.0 = 1e30
    exact hdist
  · rw [hk]
    set k := (solve_bisection (TravelExpFunc 1e30 0.5) 0.0001 100.0 1e-10).1 with hkdef
    have hm := bisect_mem (TravelExpFunc 1e30 0.5) 1e-10 100 0.0001 100.0 (by norm_num)
    have hk1 : 0.0001 ≤ k := hm.1
    have hk2 : k ≤ 100 := le_trans hm.2 (by norm_num)
    have he1 : Real.exp (k * 0.5) ≤ Real.exp 50 := Real.exp_le_exp.mpr (by linarith)
    have he2 : Real.exp 50 = Real.exp 1 ^ 50 := by
      rw [← Real.exp_nat_mul]; norm_num
    have he3 : Real.exp 1 ^ 50 ≤ (2.72 : ℝ) ^ 50 :=
      pow_le_pow_left₀ (le_of_lt (Real.exp_pos 1))
        (by linarith [Real.exp_one_lt_d9]) 50
    have he4 : (2.72 : ℝ) ^ 50 ≤ 1e22 := by norm_num
    have hfac : k * (1 - 0.5) + 1 ≤ 51 := by linarith
    have hfac0 : (0 : ℝ) ≤ k * (1 - 0.5) + 1 := by linarith
    have hexp0 : (0 : ℝ) ≤ Real.exp (k * 0.5) := le_of_lt (Real.exp_pos _)
    have hprod : Real.exp (k * 0.5) * (k * (1 - 0.5) + 1) ≤ 1e22 * 51 := by
      apply mul_le_mul (by linarith) hfac hfac0 (by norm_num)
    unfold TravelExpFunc
    have hneg : Real.exp (k * 0.5) * (k * (1 - 0.5) + 1) - 1 - 1e30 < 0 := by
      nlinarith
    rw [abs_of_neg hneg]
    intro hcon
    nlinarith

@[simp] theorem Quaternion.vec3_one : (1 : Quat).vec3 = 0 := by
  ext <;> simp [Quaternion.vec3]

@[simp] theorem Vec3.cross_zero_left (v : Vec3) : (0 : Vec3).cross v = 0 := by
  ext <;> simp [Vec3.cross]

@[simp] theorem Vec3.cross_zero_right (v : Vec3) : v.cross 0 = 0 := by
  ext <;> simp [Vec3.cross]

@[simp] theorem qrotE_one (v : Vec3) : qrotE 1 v = v := by
  unfold qrotE
  simp

/-- A visible spherical body of radius 1 at the origin, used as a
concrete selection. -/
def bodyR1 : Sel :=
  Sel.body (fun _ => 0) 1 false none none Sel.empty (fun _ => 1) (fun _ => 1)

theorem getPreferredDistance_bodyR1 : getPreferredDistance bodyR1 = 5 := by
  unfold getPreferredDistance bodyR1
  norm_num

/-- Counterexample to C6 as stated: for a visible body of radius 1 seen
from 100 km away the observer is "currently far" (100 is beyond 10 times
the preferred distance 5), and the code chooses the preferred distance 5
— not one tenth of the current distance (10) as the claim says. -/
theorem getOrbitDistance_counterexample :
    getPreferredDistance bodyR1 * 10.0 < 100 ∧
    getOrbitDistance bodyR1 100 = 5 ∧
    getOrbitDistance bodyR1 100 ≠ 100 * 0.1 := by
  have h5 : getPreferredDistance bodyR1 = 5 := getPreferredDistance_bodyR1
  refine ⟨by rw [h5]; norm_num, ?_, ?_⟩
  · unfold getOrbitDistance
    rw [h5]
    simp only []
    rw [if_pos (by norm_num : (5 : ℝ) * 10.0 < 100)]
    show max (5 : ℝ) (1.01 * bodyR1.radius) = 5
    unfold bodyR1 Sel.radius
    norm_num
  · unfold getOrbitDistance
    rw [h5]
    simp only []
    rw [if_pos (by norm_num : (5 : ℝ) * 10.0 < 100)]
    show max (5 : ℝ) (1.01 * bodyR1.radius) ≠ 100 * 0.1
    unfold bodyR1 Sel.radius
    norm_num

theorem computeGotoParameters_destU (o : Observer) (destination : Sel)
    (gotoTime si ei accelT : ℝ) (offset up : Vec3) (ucs : CoordinateSystem) :
    (o.computeGotoParameters destination gotoTime si ei accelT offset
        CoordinateSystem.Universal up ucs).1.frame.convertToUniversal
      ((o.computeGotoParameters destination gotoTime si ei accelT offset
        CoordinateSystem.Universal up ucs).2.toPos)
      ((o.computeGotoParameters destination gotoTime si ei accelT offset
        CoordinateSystem.Universal up ucs).1.simTime)
      = (destination.getPosition o.simTime).offsetKm offset := by
  unfold Observer.computeGotoParameters
  simp only [ObserverFrame.make, ObserverFrame.createFrame,
    ObserverFrame.getFrame, ReferenceFrame.getOrientation, star_one, qrotE_one,
    Observer.getTime,
    if_neg (show ¬ (CoordinateSystem.Universal = CoordinateSystem.ObserverLocal)
      by decide)]
  split
  · rw [ObserverFrame.roundTripP]
    rfl
  · rw [ObserverFrame.roundTripP]
    rfl

/-- C6 (amended): the orbit distance of a direct selection goto is never
below 1.01 times the object's radius; when the observer is currently far
(beyond ten times the preferred distance) it is the preferred distance —
not one tenth of the current distance as the claim stated — and when the
observer is closer it is one tenth of the current distance (not the
preferred distance); and the destination installed by `gotoSelection`
lies along the line from the current position to the target, offset from
the target by exactly that orbit distance. -/
theorem gotoSelection_destination_amended
    (o : Observer) (sel : Sel) (gotoTime si ei accelT : ℝ)
    (up : Vec3) (ucs : CoordinateSystem)
    (hne : sel.isEmpty = false)
    (hrad : 0 ≤ sel.radius)
    (hv : ((sel.getPosition o.simTime).offsetFromKm o.getPosition).norm ≠ 0) :
    (∀ cd : ℝ, 1.01 * sel.radius ≤ getOrbitDistance sel cd) ∧
    (∀ cd : ℝ, getPreferredDistance sel * 10.0 < cd →
        1.01 * sel.radius ≤ getPreferredDistance sel →
        getOrbitDistance sel cd = getPreferredDistance sel) ∧
    (∀ cd : ℝ, ¬ getPreferredDistance sel * 10.0 < cd →
        1.01 * sel.radius ≤ cd * 0.1 →
        getOrbitDistance sel cd = cd * 0.1) ∧
    ((o.gotoSelection7 sel gotoTime si ei accelT up ucs).frame.convertToUniversal
        ((o.gotoSelection7 sel gotoTime si ei accelT up ucs).journey.toPos)
        ((o.gotoSelection7 sel gotoTime si ei accelT up ucs).simTime)).offsetFromKm
        (sel.getPosition o.simTime)
      = (-(getOrbitDistance sel
            ((sel.getPosition o.simTime).offsetFromKm o.getPosition).norm
          / ((sel.getPosition o.simTime).offsetFromKm o.getPosition).norm)) •
        ((sel.getPosition o.simTime).offsetFromKm o.getPosition) ∧
    (((o.gotoSelection7 sel gotoTime si ei accelT up ucs).frame.convertToUniversal
        ((o.gotoSelection7 sel gotoTime si ei accelT up ucs).journey.toPos)
        ((o.gotoSelection7 sel gotoTime si ei accelT up ucs).simTime)).offsetFromKm
        (sel.getPosition o.simTime)).norm
      = getOrbitDistance sel
          ((sel.getPosition o.simTime).offsetFromKm o.getPosition).norm := by
  have horb0 : ∀ cd : ℝ, 0 ≤ getOrbitDistance sel cd := by
    intro cd
    have h1 : (0 : ℝ) ≤ 1.01 * sel.radius := by linarith
    exact le_trans h1 (le_max_right _ _)
  have hdest :
      ((o.gotoSelection7 sel gotoTime si ei accelT up ucs).frame.convertToUniversal
        ((o.gotoSelection7 sel gotoTime si ei accelT up ucs).journey.toPos)
        ((o.gotoSelection7 sel gotoTime si ei accelT up ucs).simTime)).offsetFromKm
        (sel.getPosition o.simTime)
      = (-(getOrbitDistance sel
            ((sel.getPosition o.simTime).offsetFromKm o.getPosition).norm
          / ((sel.getPosition o.simTime).offsetFromKm o.getPosition).norm)) •
        ((sel.getPosition o.simTime).offsetFromKm o.getPosition) := by
    unfold Observer.gotoSelection7
    simp only [hne, Bool.not_false, if_true, Observer.getTime]
    rw [computeGotoParameters_destU]
    unfold UniversalCoord.offsetKm UniversalCoord.offsetFromKm
    ext <;> simp
  refine ⟨?_, ?_, ?_, hdest, ?_⟩
  · intro cd
    exact le_max_right _ _
  · intro cd hfar hmin
    unfold getOrbitDistance
    simp only []
    rw [if_pos hfar]
    exact max_eq_left hmin
  · intro cd hnear hmin
    unfold getOrbitDistance
    simp only []
    rw [if_neg hnear]
    exact max_eq_left hmin
  · rw [hdest, Vec3.norm_smul, abs_neg,
      abs_of_nonneg (div_nonneg (horb0 _) (Vec3.norm_nonneg _)),
      div_mul_cancel₀ _ hv]

/-- A visible body of radius 1 sitting 100 km from the origin on the x
axis. -/
def bodyR1Far : Sel :=
  Sel.body (fun _ => ⟨100, 0, 0⟩) 1 false none none Sel.empty
    (fun _ => 1) (fun _ => 1)

/-- Witness for the amended C6 theorem at a concrete observer and body. -/
theorem gotoSelection_destination_amended_witness :
    (bodyR1Far.isEmpty = false ∧ (0 : ℝ) ≤ bodyR1Far.radius ∧
      ((bodyR1Far.getPosition obs0.simTime).offsetFromKm obs0.getPosition).norm ≠ 0) ∧
    (((obs0.gotoSelection7 bodyR1Far 5 0.25 0.75 0.5 Vec3.unitY
          CoordinateSystem.Universal).frame.convertToUniversal
        ((obs0.gotoSelection7 bodyR1Far 5 0.25 0.75 0.5 Vec3.unitY
          CoordinateSystem.Universal).journey.toPos)
        ((obs0.gotoSelection7 bodyR1Far 5 0.25 0.75 0.5 Vec3.unitY
          CoordinateSystem.Universal).simTime)).offsetFromKm
        (bodyR1Far.getPosition obs0.simTime)).norm
      = getOrbitDistance bodyR1Far
          ((bodyR1Far.getPosition obs0.simTime).offsetFromKm obs0.getPosition).norm := by
  have hnorm : ((bodyR1Far.getPosition obs0.simTime).offsetFromKm
      obs0.getPosition).norm = 100 := by
    show ((⟨100, 0, 0⟩ : Vec3) - (0 : Vec3)).norm = 100
    rw [Vec3.sub_zero, Vec3.norm_axis]
    norm_num
  have hne : bodyR1Far.isEmpty = false := rfl
  have hrad : (0 : ℝ) ≤ bodyR1Far.radius := by
    unfold bodyR1Far Sel.radius
    norm_num
  have hv : ((bodyR1Far.getPosition obs0.simTime).offsetFromKm
      obs0.getPosition).norm ≠ 0 := by
    rw [hnorm]; norm_num
  exact ⟨⟨hne, hrad, hv⟩,
    (gotoSelection_destination_amended obs0 bodyR1Far 5 0.25 0.75 0.5 Vec3.unitY
      CoordinateSystem.Universal hne hrad hv).2.2.2.2⟩

theorem createFrame_center_anchored (cs : CoordinateSystem) (r tg : Sel)
    (h1 : cs ≠ CoordinateSystem.Universal)
    (h2 : cs ≠ CoordinateSystem.ObserverLocal) :
    (ObserverFrame.createFrame cs r tg).centerSel = r := by
  cases cs <;> first
    | rfl
    | exact absurd rfl h1
    | exact absurd rfl h2

theorem gotoSelection7_frame (o : Observer) (sel : Sel)
    (gotoTime si ei accelT : ℝ) (up : Vec3) (ucs : CoordinateSystem)
    (hne : sel.isEmpty = false) :
    (o.gotoSelection7 sel gotoTime si ei accelT up ucs).frame
      = ObserverFrame.make
          (if o.frame.getCoordinateSystem = CoordinateSystem.PhaseLock
           then CoordinateSystem.Ecliptical
           else o.frame.getCoordinateSystem) sel Sel.empty := by
  unfold Observer.gotoSelection7 Observer.computeGotoParameters
  simp only [hne, Bool.not_false, if_true]
  split
  · rfl
  · rfl

theorem gotoSelection7_universal_unchanged (o : Observer) (sel : Sel)
    (gotoTime si ei accelT : ℝ) (up : Vec3) (ucs : CoordinateSystem)
    (hne : sel.isEmpty = false) :
    (o.gotoSelection7 sel gotoTime si ei accelT up ucs).positionUniv
        = o.positionUniv ∧
    (o.gotoSelection7 sel gotoTime si ei accelT up ucs).orientationUniv
        = o.orientationUniv := by
  unfold Observer.gotoSelection7 Observer.computeGotoParameters
  simp only [hne, Bool.not_false, if_true]
  split
  · exact ⟨rfl, rfl⟩
  · exact ⟨rfl, rfl⟩

theorem gotoSelectionGC_frame (o : Observer) (sel : Sel) (gotoTime : ℝ)
    (up : Vec3) (ucs : CoordinateSystem) (hne : sel.isEmpty = false) :
    (o.gotoSelectionGC sel gotoTime up ucs).frame
      = ObserverFrame.make o.frame.getCoordinateSystem sel Sel.empty := by
  unfold Observer.gotoSelectionGC Observer.computeGotoParametersGC
  simp only [hne, Bool.not_false, if_true]
  rfl

theorem gotoSelectionGC_universal_unchanged (o : Observer) (sel : Sel)
    (gotoTime : ℝ) (up : Vec3) (ucs : CoordinateSystem)
    (hne : sel.isEmpty = false) :
    (o.gotoSelectionGC sel gotoTime up ucs).positionUniv = o.positionUniv ∧
    (o.gotoSelectionGC sel gotoTime up ucs).orientationUniv
        = o.orientationUniv := by
  unfold Observer.gotoSelectionGC Observer.computeGotoParametersGC
  simp only [hne, Bool.not_false, if_true]
  exact ⟨rfl, rfl⟩

/-- C10 (amended): for a non-empty destination, a direct goto replaces
the frame keeping the coordinate-system tag (Ecliptical when the current
tag is PhaseLock) and a great-circle goto always keeps the tag; the new
frame is anchored at the destination except for the Universal and
ObserverLocal tags, whose frames are anchored at the barycenter (the
empty selection) because their construction ignores the reference
object; the replacement preserves the universal position and
orientation. -/
theorem goto_frame_replacement_amended (o : Observer) (sel : Sel)
    (gotoTime si ei accelT : ℝ) (up : Vec3) (ucs : CoordinateSystem)
    (hne : sel.isEmpty = false) :
    (o.gotoSelection7 sel gotoTime si ei accelT up ucs).frame.getCoordinateSystem
      = (if o.frame.getCoordinateSystem = CoordinateSystem.PhaseLock
         then CoordinateSystem.Ecliptical
         else o.frame.getCoordinateSystem) ∧
    (o.gotoSelectionGC sel gotoTime up ucs).frame.getCoordinateSystem
      = o.frame.getCoordinateSystem ∧
    (o.frame.getCoordinateSystem ≠ CoordinateSystem.Universal →
     o.frame.getCoordinateSystem ≠ CoordinateSystem.ObserverLocal →
      (o.gotoSelection7 sel gotoTime si ei accelT up ucs).frame.getRefObject = sel ∧
      (o.gotoSelectionGC sel gotoTime up ucs).frame.getRefObject = sel) ∧
    (o.frame.getCoordinateSystem = CoordinateSystem.Universal →
      (o.gotoSelection7 sel gotoTime si ei accelT up ucs).frame.getRefObject
        = Sel.empty ∧
      (o.gotoSelectionGC sel gotoTime up ucs).frame.getRefObject = Sel.empty) ∧
    (o.gotoSelection7 sel gotoTime si ei accelT up ucs).positionUniv
      = o.positionUniv ∧
    (o.gotoSelection7 sel gotoTime si ei accelT up ucs).orientationUniv
      = o.orientationUniv ∧
    (o.gotoSelectionGC sel gotoTime up ucs).positionUniv = o.positionUniv ∧
    (o.gotoSelectionGC sel gotoTime up ucs).orientationUniv
      = o.orientationUniv := by
  have hd := gotoSelection7_frame o sel gotoTime si ei accelT up ucs hne
  have hg := gotoSelectionGC_frame o sel gotoTime up ucs hne
  have hdu := gotoSelection7_universal_unchanged o sel gotoTime si ei accelT up ucs hne
  have hgu := gotoSelectionGC_universal_unchanged o sel gotoTime up ucs hne
  refine ⟨?_, ?_, ?_, ?_, hdu.1, hdu.2, hgu.1, hgu.2⟩
  · rw [hd]
    rfl
  · rw [hg]
    rfl
  · intro h1 h2
    constructor
    · rw [hd]
      show (ObserverFrame.createFrame _ sel Sel.empty).centerSel = sel
      apply createFrame_center_anchored
      · split
        · exact fun hh => CoordinateSystem.noConfusion hh
        · exact h1
      · split
        · exact fun hh => CoordinateSystem.noConfusion hh
        · exact h2
    · rw [hg]
      exact createFrame_center_anchored _ sel Sel.empty h1 h2
  · intro h1
    constructor
    · rw [hd, h1]
      rfl
    · rw [hg, h1]
      rfl

/-- Counterexample to C10 as stated: from the default Universal frame, a
direct goto to a body installs a frame that keeps the Universal tag but
is anchored at the barycenter (the empty selection), not at the
destination. -/
theorem goto_frame_anchor_counterexample :
    obs0.frame.getCoordinateSystem = CoordinateSystem.Universal ∧
    (obs0.gotoSelection7 bodyR1Far 5 0.25 0.75 0.5 Vec3.unitY
        CoordinateSystem.Universal).frame.getRefObject = Sel.empty ∧
    Sel.empty ≠ bodyR1Far := by
  refine ⟨rfl, ?_, fun h => Sel.noConfusion h⟩
  rw [gotoSelection7_frame obs0 bodyR1Far 5 0.25 0.75 0.5 Vec3.unitY
    CoordinateSystem.Universal rfl]
  rfl

/-- Witness for the amended C10 theorem: a goto from the default
Universal frame anchors the new frame at the barycenter and keeps the
universal position. -/
theorem goto_frame_replacement_amended_witness :
    bodyR1Far.isEmpty = false ∧
    ((obs0.gotoSelection7 bodyR1Far 5 0.25 0.75 0.5 Vec3.unitY
        CoordinateSystem.Universal).frame.getRefObject = Sel.empty ∧
     (obs0.gotoSelectionGC bodyR1Far 5 Vec3.unitY
        CoordinateSystem.Universal).frame.getRefObject = Sel.empty) ∧
    (obs0.gotoSelection7 bodyR1Far 5 0.25 0.75 0.5 Vec3.unitY
        CoordinateSystem.Universal).positionUniv = obs0.positionUniv :=
  ⟨rfl,
   (goto_frame_replacement_amended obs0 bodyR1Far 5 0.25 0.75 0.5 Vec3.unitY
      CoordinateSystem.Universal rfl).2.2.2.1 rfl,
   (goto_frame_replacement_amended obs0 bodyR1Far 5 0.25 0.75 0.5 Vec3.unitY
      CoordinateSystem.Universal rfl).2.2.2.2.1⟩

@[simp] theorem qrotE_zero (v : Vec3) : qrotE 0 v = v := by
  unfold qrotE
  simp

theorem qnormSq_smul (c : ℝ) (q : Quat) :
    Quaternion.normSq (c • q) = c ^ 2 * Quaternion.normSq q := by
  rw [Quaternion.normSq_def', Quaternion.normSq_def']
  simp [Quaternion.smul_re]
  ring

@[simp] theorem qnormalize_zero : qnormalize 0 = 0 := by
  unfold qnormalize
  simp

theorem qnormalize_unit (w : Quat) (hw : w ≠ 0) :
    Quaternion.normSq (qnormalize w) = 1 := by
  have hns : Quaternion.normSq w ≠ 0 := by
    simpa [Quaternion.normSq_eq_zero] using hw
  have hpos : 0 < Quaternion.normSq w :=
    lt_of_le_of_ne Quaternion.normSq_nonneg (Ne.symm hns)
  unfold qnormalize qnormSq
  rw [qnormSq_smul]
  rw [div_pow, one_pow, Real.sq_sqrt (le_of_lt hpos)]
  field_simp

theorem qrotE_norm_unit (q : Quat) (h : Quaternion.normSq q = 1) (v : Vec3) :
    (qrotE q v).norm = v.norm := by
  unfold Vec3.norm
  congr 1
  rw [Quaternion.normSq_def'] at h
  unfold qrotE Quaternion.vec3 Vec3.cross Vec3.normSq
  simp only [Vec3.smul_x, Vec3.smul_y, Vec3.smul_z, Vec3.add_x, Vec3.add_y,
    Vec3.add_z, Vec3.mk_x, Vec3.mk_y, Vec3.mk_z]
  linear_combination (4 * ((q.imI ^ 2 + q.imJ ^ 2 + q.imK ^ 2) *
      (v.x ^ 2 + v.y ^ 2 + v.z ^ 2)) -
    4 * (q.imI * v.x + q.imJ * v.y + q.imK * v.z) ^ 2) * h

@[simp] theorem offsetKm_offsetFromKm_cancel (p : UniversalCoord) (x : Vec3) :
    (p.offsetKm x).offsetFromKm p = x := by
  unfold UniversalCoord.offsetKm UniversalCoord.offsetFromKm
  ext <;> simp

/-- The radial renormalization at the heart of `Observer::orbit`: rotating
the offset vector by the (normalized) rotation and rescaling it to the
original length preserves the length exactly, for every input rotation
and every offset. -/
theorem orbit_renorm (v : Vec3) (w : Quat) :
    (v.norm • (qrotE (star (qnormalize w)) v).normalized).norm = v.norm := by
  by_cases hv : v = 0
  · subst hv
    simp
  · have hvn : v.norm ≠ 0 := fun h0 => hv ((Vec3.norm_eq_zero_iff v).mp h0)
    have hrot : (qrotE (star (qnormalize w)) v).norm = v.norm := by
      by_cases hw : w = 0
      · rw [hw, qnormalize_zero, star_zero, qrotE_zero]
      · exact qrotE_norm_unit _
          (by rw [Quaternion.normSq_star]; exact qnormalize_unit w hw) v
    have hrne : qrotE (star (qnormalize w)) v ≠ 0 := by
      intro h0
      rw [h0] at hrot
      exact hv ((Vec3.norm_eq_zero_iff v).mp (by simpa using hrot.symm))
    rw [Vec3.norm_smul, Vec3.norm_normalized _ hrne,
      abs_of_nonneg (Vec3.norm_nonneg v), mul_one]

theorem orbit_else_norm (s : Observer) (focus : UniversalCoord) (q : Quat)
    (hcons : s.consistent) :
    ((Observer.updateUniversal
        { s with
          orientation :=
            s.orientation * qnormalize (star s.orientation * q * s.orientation),
          position := focus.offsetKm
            ((s.position.offsetFromKm focus).norm •
              (qrotE (star (qnormalize (star s.orientation * q * s.orientation)))
                (s.position.offsetFromKm focus)).normalized) }).position.offsetFromKm
      focus).norm
    = (s.position.offsetFromKm focus).norm := by
  unfold Observer.updateUniversal
  simp only []
  split
  · show ((s.frame.convertFromUniversal s.positionUniv s.simTime).offsetFromKm
        focus).norm = (s.position.offsetFromKm focus).norm
    rw [← hcons.1, ObserverFrame.roundTripP']
  · show ((focus.offsetKm
        ((s.position.offsetFromKm focus).norm •
          (qrotE (star (qnormalize (star s.orientation * q * s.orientation)))
            (s.position.offsetFromKm focus)).normalized)).offsetFromKm focus).norm
      = (s.position.offsetFromKm focus).norm
    rw [offsetKm_offsetFromKm_cancel]
    exact orbit_renorm _ _

/-- C8: `orbit(selection, q)` preserves the distance between the
observer's frame-local position and the focus exactly, for every
rotation quaternion and every starting state satisfying the universal
consistency invariant.  When a reference object is set it is the focus;
when none is set and the selection is non-empty, the selection is
adopted as the reference (re-expressing — not moving — the observer in
the adopted frame) and serves as the focus. -/
theorem orbit_preserves_distance (o : Observer) (selection : Sel) (q : Quat)
    (hcons : o.consistent) :
    (o.frame.getRefObject.isEmpty = false →
      ((o.orbit selection q).position.offsetFromKm
          (o.frame.convertFromUniversal
            (o.frame.getRefObject.getPosition o.getTime) o.getTime)).norm
        = (o.position.offsetFromKm
            (o.frame.convertFromUniversal
              (o.frame.getRefObject.getPosition o.getTime) o.getTime)).norm) ∧
    (o.frame.getRefObject.isEmpty = true → selection.isEmpty = false →
      ((o.orbit selection q).position.offsetFromKm
          ((o.setFrameCS o.frame.getCoordinateSystem selection).frame.convertFromUniversal
            (selection.getPosition o.getTime) o.getTime)).norm
        = ((o.setFrameCS o.frame.getCoordinateSystem selection).position.offsetFromKm
            ((o.setFrameCS o.frame.getCoordinateSystem selection).frame.convertFromUniversal
              (selection.getPosition o.getTime) o.getTime)).norm) := by
  constructor
  · intro href
    simp only [Observer.orbit, href, Bool.false_and, Bool.false_eq_true,
      if_false, Observer.getTime]
    exact orbit_else_norm o
      (o.frame.convertFromUniversal
        (o.frame.getRefObject.getPosition o.simTime) o.simTime) q hcons
  · intro href hsel
    have hcons1 : (o.setFrameCS o.frame.getCoordinateSystem selection).consistent :=
      Observer.consistent_setFrameCS3 o _ selection Sel.empty
    simp only [Observer.orbit, href, hsel, Bool.true_and, Bool.not_false,
      if_true, Bool.false_eq_true, if_false, Observer.getTime]
    exact orbit_else_norm (o.setFrameCS o.frame.getCoordinateSystem selection)
      ((o.setFrameCS o.frame.getCoordinateSystem selection).frame.convertFromUniversal
        (selection.getPosition
          (o.setFrameCS o.frame.getCoordinateSystem selection).simTime)
        (o.setFrameCS o.frame.getCoordinateSystem selection).simTime) q hcons1

/-- A consistent observer in an Ecliptical frame anchored at
`bodyR1Far`. -/
def obsE : Observer :=
  { obs0 with
    frame := ObserverFrame.make CoordinateSystem.Ecliptical bodyR1Far Sel.empty,
    position := ⟨-100, 0, 0⟩ }

theorem obsE_consistent : obsE.consistent := by
  constructor
  · show obsE.frame.convertToUniversal ⟨-100, 0, 0⟩ 0 = 0
    simp [obsE, ObserverFrame.make, ObserverFrame.createFrame,
      ObserverFrame.convertToUniversal, ReferenceFrame.posToUniversal,
      bodyR1Far, Sel.getPosition]
    ext <;> simp
  · show obsE.frame.convertToUniversalQ 1 0 = 1
    simp [obsE, ObserverFrame.make, ObserverFrame.createFrame,
      ObserverFrame.convertToUniversalQ, ReferenceFrame.oriToUniversal]

/-- Witness for the C8 theorem at a concrete consistent observer with a
set reference object. -/
theorem orbit_preserves_distance_witness :
    (obsE.consistent ∧ obsE.frame.getRefObject.isEmpty = false) ∧
    ((obsE.orbit Sel.empty 1).position.offsetFromKm
        (obsE.frame.convertFromUniversal
          (obsE.frame.getRefObject.getPosition obsE.getTime) obsE.getTime)).norm
      = (obsE.position.offsetFromKm
          (obsE.frame.convertFromUniversal
            (obsE.frame.getRefObject.getPosition obsE.getTime) obsE.getTime)).norm :=
  ⟨⟨obsE_consistent, rfl⟩,
   (orbit_preserves_distance obsE Sel.empty 1 obsE_consistent).1 rfl⟩

/-- C7 (amended): with an empty selection, the goto and center
operations (`gotoSelection` in all three overloads, `gotoSelectionGC` in
both overloads, `gotoSelectionLongLat`, `centerSelection`,
`centerSelectionCO`) and the guarded frame-switch operations `chase` and
`geosynchronousFollow` are exact no-ops: the observer state — mode,
position, orientation, frame and journey included — is unchanged, and no
error is raised (all operations are total).  `gotoSurface`, `follow`
and `phaseLock` are not in this list: they perform no empty-selection
check (see the counterexample). -/
theorem emptySelection_goto_noop (o : Observer)
    (gotoTime si ei accelT distance longitude latitude centerTime : ℝ)
    (up : Vec3) (ucs : CoordinateSystem) :
    o.gotoSelection7 Sel.empty gotoTime si ei accelT up ucs = o ∧
    o.gotoSelection4 Sel.empty gotoTime up ucs = o ∧
    o.gotoSelectionGC Sel.empty gotoTime up ucs = o ∧
    o.gotoSelectionDistance Sel.empty gotoTime distance up ucs = o ∧
    o.gotoSelectionGCDistance Sel.empty gotoTime distance up ucs = o ∧
    o.gotoSelectionLongLat Sel.empty gotoTime distance longitude latitude up = o ∧
    o.centerSelection Sel.empty centerTime = o ∧
    o.centerSelectionCO Sel.empty centerTime = o ∧
    o.chase Sel.empty = o ∧
    o.geosynchronousFollow Sel.empty = o :=
  ⟨rfl, rfl, rfl, rfl, rfl, rfl, rfl, rfl, rfl, rfl⟩

/-- Counterexample to C7 as stated: `gotoSurface` performs no
empty-selection check and installs a journey (the mode becomes
`Travelling`); `follow` re-frames onto an Ecliptical frame anchored at
the barycenter; `phaseLock` with an empty selection but a non-empty
reference object installs a PhaseLock frame.  None of the three is a
no-op on an empty selection. -/
theorem emptySelection_not_noop_counterexample :
    obs0.observerMode = ObserverMode.Free ∧
    (obs0.gotoSurface Sel.empty 5).observerMode = ObserverMode.Travelling ∧
    obs0.frame.getCoordinateSystem = CoordinateSystem.Universal ∧
    (obs0.follow Sel.empty).frame.getCoordinateSystem
      = CoordinateSystem.Ecliptical ∧
    obsE.frame.getCoordinateSystem = CoordinateSystem.Ecliptical ∧
    (obsE.phaseLock Sel.empty).frame.getCoordinateSystem
      = CoordinateSystem.PhaseLock := by
  refine ⟨rfl, rfl, rfl, rfl, rfl, ?_⟩
  simp only [Observer.phaseLock]
  rw [if_pos (show Sel.empty ≠ obsE.frame.getRefObject from
    fun hh => Sel.noConfusion hh)]
  rfl

@[simp] theorem offsetKm_zero (p : UniversalCoord) : p.offsetKm 0 = p := by
  unfold UniversalCoord.offsetKm
  ext <;> simp

/-- The completion behaviour of a quiescent Linear/GreatCircle journey,
with the universal mirror, simulation time and frame of the resulting
state also characterized (shared by several results below). -/
theorem journey_completion_core (o : Observer) (dt timeScale : ℝ)
    (hmode : o.observerMode = ObserverMode.Travelling)
    (hdur : 0 < o.journey.duration)
    (htraj : o.journey.traj = TrajectoryType.Linear ∨
      o.journey.traj = TrajectoryType.GreatCircle)
    (harr : o.journey.startTime + o.journey.duration ≤ o.realTime + dt)
    (htv : o.targetVelocity = 0)
    (hav : o.angularVelocity = 0)
    (htrack : o.trackObject.isEmpty = true)
    (hunit : qnormSq o.journey.finalOrientation = 1)
    (hbound : ¬ (o.frame.convertToUniversal o.journey.toPos
        (advancedSimTime o dt timeScale)).isOutOfBounds) :
    (o.update dt timeScale).observerMode = ObserverMode.Free ∧
    (o.update dt timeScale).position = o.journey.toPos ∧
    (o.update dt timeScale).orientation = o.journey.finalOrientation ∧
    (o.update dt timeScale).getVelocity = 0 ∧
    (o.update dt timeScale).positionUniv
      = o.frame.convertToUniversal o.journey.toPos
          (advancedSimTime o dt timeScale) ∧
    (o.update dt timeScale).simTime = advancedSimTime o dt timeScale ∧
    (o.update dt timeScale).frame = o.frame := by
  have htraj' : o.journey.traj ≠ TrajectoryType.CircularOrbit := by
    rcases htraj with h | h <;> rw [h] <;>
      exact fun hh => TrajectoryType.noConfusion hh
  have hx : 1 ≤ (o.realTime + dt - o.journey.startTime) / o.journey.duration :=
    (one_le_div hdur).mpr (by linarith)
  have hclamp :
      clamp ((o.realTime + dt - o.journey.startTime) / o.journey.duration) 0 1
        = 1 := by
    unfold clamp
    rw [min_eq_right hx]
    exact max_eq_right zero_le_one
  have hqn : qnormalize o.journey.finalOrientation
      = o.journey.finalOrientation := by
    unfold qnormalize
    rw [hunit, Real.sqrt_one]
    simp
  refine ⟨?_, ?_, ?_, ?_, ?_, ?_, ?_⟩ <;>
    simp only [Observer.update, Observer.journeyTick, Observer.velocityRamp,
      Observer.freeRotate, Observer.trackStep, Observer.updateUniversal,
      Observer.getVelocity, Observer.setVelocity, Observer.setOrientation,
      Observer.getTime, Observer.getPosition, Observer.getOrientation,
      hmode, eq_true hdur, if_true, hclamp, eq_self_iff_true,
      eq_true htraj', htv, hav, htrack,
      Vec3.smul_zero, Vec3.toQuat_zero, zero_mul, smul_zero, add_zero,
      offsetKm_zero, hqn, eq_false hbound, if_false]

/-- C3 (amended): a journey with positive duration and a Linear or
GreatCircle trajectory, completed by an update call that advances real
time to at least `startTime + duration`, ends with mode `Free`,
frame-local position exactly `journey.to`, frame-local orientation
exactly `journey.finalOrientation`, and zero velocity — provided the
observer is otherwise quiescent: zero target velocity (else the manual
velocity ramp re-accelerates in the same tick), zero angular velocity
and a unit final orientation (else the free-mode orientation integration
perturbs it), no tracked object, and an in-bounds destination (else
`updateUniversal` discards the arrival). -/
theorem journey_completion_amended (o : Observer) (dt timeScale : ℝ)
    (hmode : o.observerMode = ObserverMode.Travelling)
    (hdur : 0 < o.journey.duration)
    (htraj : o.journey.traj = TrajectoryType.Linear ∨
      o.journey.traj = TrajectoryType.GreatCircle)
    (harr : o.journey.startTime + o.journey.duration ≤ o.realTime + dt)
    (htv : o.targetVelocity = 0)
    (hav : o.angularVelocity = 0)
    (htrack : o.trackObject.isEmpty = true)
    (hunit : qnormSq o.journey.finalOrientation = 1)
    (hbound : ¬ (o.frame.convertToUniversal o.journey.toPos
        (advancedSimTime o dt timeScale)).isOutOfBounds) :
    (o.update dt timeScale).observerMode = ObserverMode.Free ∧
    (o.update dt timeScale).position = o.journey.toPos ∧
    (o.update dt timeScale).orientation = o.journey.finalOrientation ∧
    (o.update dt timeScale).getVelocity = 0 := by
  have h := journey_completion_core o dt timeScale hmode hdur htraj harr htv
    hav htrack hunit hbound
  exact ⟨h.1, h.2.1, h.2.2.1, h.2.2.2.1⟩

@[simp] theorem Vec3.one_smul (v : Vec3) : (1 : ℝ) • v = v := by
  ext <;> simp

theorem not_oob_of_small (v : UniversalCoord) (hx : |v.x| ≤ 1e32)
    (hy : |v.y| ≤ 1e32) (hz : |v.z| ≤ 1e32) :
    ¬ UniversalCoord.isOutOfBounds v := by
  unfold UniversalCoord.isOutOfBounds universalCoordLimit
  push_neg
  exact ⟨hx, hy, hz⟩

/-- Journey completion with a nonzero manual target velocity: in the
very tick that completes the journey, the velocity ramp re-applies the
target velocity and the position moves off the destination by
`dt · targetVelocity`.  This is what refutes the unconditional claim. -/
theorem journey_completion_ramped (o : Observer) (dt timeScale : ℝ)
    (hmode : o.observerMode = ObserverMode.Travelling)
    (hdur : 0 < o.journey.duration)
    (htraj : o.journey.traj = TrajectoryType.Linear ∨
      o.journey.traj = TrajectoryType.GreatCircle)
    (harr : o.journey.startTime + o.journey.duration ≤ o.realTime + dt)
    (htv0 : o.targetVelocity ≠ 0)
    (hsp : ¬ (o.targetVelocity.norm < 1e-12))
    (hramp : VELOCITY_CHANGE_TIME ≤ o.realTime + dt - o.beginAccelTime)
    (hav : o.angularVelocity = 0)
    (htrack : o.trackObject.isEmpty = true)
    (hunit : qnormSq o.journey.finalOrientation = 1)
    (hbound : ¬ (o.frame.convertToUniversal
        (o.journey.toPos.offsetKm (dt • o.targetVelocity))
        (advancedSimTime o dt timeScale)).isOutOfBounds) :
    (o.update dt timeScale).getVelocity = o.targetVelocity ∧
    (o.update dt timeScale).position
      = o.journey.toPos.offsetKm (dt • o.targetVelocity) := by
  have htraj' : o.journey.traj ≠ TrajectoryType.CircularOrbit := by
    rcases htraj with h | h <;> rw [h] <;>
      exact fun hh => TrajectoryType.noConfusion hh
  have hx : 1 ≤ (o.realTime + dt - o.journey.startTime) / o.journey.duration :=
    (one_le_div hdur).mpr (by linarith)
  have hclamp :
      clamp ((o.realTime + dt - o.journey.startTime) / o.journey.duration) 0 1
        = 1 := by
    unfold clamp
    rw [min_eq_right hx]
    exact max_eq_right zero_le_one
  have hvc : (0 : ℝ) < VELOCITY_CHANGE_TIME := by
    unfold VELOCITY_CHANGE_TIME
    norm_num
  have hx2 : 1 ≤ (o.realTime + dt - o.beginAccelTime) / VELOCITY_CHANGE_TIME :=
    (one_le_div hvc).mpr (by linarith)
  have hclamp2 :
      clamp ((o.realTime + dt - o.beginAccelTime) / VELOCITY_CHANGE_TIME) 0 1
        = 1 := by
    unfold clamp
    rw [min_eq_right hx2]
    exact max_eq_right zero_le_one
  have hne : ((0 : Vec3) = o.targetVelocity) = False :=
    eq_false (fun h => htv0 h.symm)
  have hqn : qnormalize o.journey.finalOrientation
      = o.journey.finalOrientation := by
    unfold qnormalize
    rw [hunit, Real.sqrt_one]
    simp
  refine ⟨?_, ?_⟩ <;>
    simp only [Observer.update, Observer.journeyTick, Observer.velocityRamp,
      Observer.freeRotate, Observer.trackStep, Observer.updateUniversal,
      Observer.getVelocity, Observer.setVelocity, Observer.setOrientation,
      Observer.getTime, Observer.getPosition, Observer.getOrientation,
      hmode, eq_true hdur, if_true, hclamp, hclamp2, eq_self_iff_true,
      eq_true htraj', hne, hav, htrack, eq_false hsp,
      sub_self, Vec3.zero_smul, Vec3.one_smul, Vec3.zero_add,
      Vec3.smul_zero, Vec3.toQuat_zero, zero_mul, smul_zero, add_zero,
      hqn, eq_false hbound, if_false]

/-- A travelling observer whose journey ends at the origin while a
manual target velocity of 1 km/s along x is set. -/
def obsJc : Observer :=
  { obs0 with
    observerMode := ObserverMode.Travelling,
    targetVelocity := ⟨1, 0, 0⟩,
    journey := { JourneyParams.default with
      duration := 1, startTime := 0, fromPos := 0, toPos := 0,
      finalOrientation := 1, startInterpolation := 0, endInterpolation := 0.5,
      expFactor := 2, accelTime := 0.5, traj := TrajectoryType.Linear } }

theorem obsJc_bound : ¬ (obsJc.frame.convertToUniversal
    (obsJc.journey.toPos.offsetKm ((2 : ℝ) • obsJc.targetVelocity))
    (advancedSimTime obsJc 2 1)).isOutOfBounds := by
  have heq : obsJc.frame.convertToUniversal
      (obsJc.journey.toPos.offsetKm ((2 : ℝ) • obsJc.targetVelocity))
      (advancedSimTime obsJc 2 1) = ⟨2, 0, 0⟩ := by
    show (ObserverFrame.default).convertToUniversal
      ((0 : UniversalCoord).offsetKm ((2 : ℝ) • ⟨1, 0, 0⟩)) _ = _
    simp [ObserverFrame.default, ObserverFrame.createFrame,
      ObserverFrame.convertToUniversal, ReferenceFrame.posToUniversal,
      Sel.getPosition, UniversalCoord.offsetKm]
    ext <;> simp
  rw [heq]
  refine not_oob_of_small _ ?_ ?_ ?_ <;>
    simp only [Vec3.mk_x, Vec3.mk_y, Vec3.mk_z] <;>
    rw [abs_le] <;> constructor <;> norm_num

/-- Counterexample to C3 as stated: a Linear journey with positive
duration completed by an update (mode is Travelling, real time advances
past `startTime + duration`), yet after the update the velocity is not
zero and the frame-local position is not `journey.to`, because the
manual velocity ramp towards the nonzero target velocity re-applies in
the same tick. -/
theorem journey_completion_counterexample :
    obsJc.observerMode = ObserverMode.Travelling ∧
    0 < obsJc.journey.duration ∧
    obsJc.journey.traj = TrajectoryType.Linear ∧
    obsJc.journey.startTime + obsJc.journey.duration ≤ obsJc.realTime + 2 ∧
    (obsJc.update 2 1).getVelocity ≠ 0 ∧
    (obsJc.update 2 1).position ≠ obsJc.journey.toPos := by
  have h := journey_completion_ramped obsJc 2 1 rfl
    (by norm_num [obsJc, obs0]) (Or.inl rfl)
    (by norm_num [obsJc, obs0]) (fun hh => by
      have hx := congrArg Vec3.x hh
      simp [obsJc, obs0] at hx)
    (by
      show ¬ ((⟨1, 0, 0⟩ : Vec3).norm < 1e-12)
      rw [Vec3.norm_axis]
      norm_num)
    (by
      show VELOCITY_CHANGE_TIME ≤ 0 + 2 - 0
      unfold VELOCITY_CHANGE_TIME
      norm_num)
    rfl rfl
    (by
      show qnormSq (1 : Quat) = 1
      unfold qnormSq
      simp)
    obsJc_bound
  refine ⟨rfl, by norm_num [obsJc, obs0], rfl, by norm_num [obsJc, obs0],
    ?_, ?_⟩
  · rw [h.1]
    intro hh
    have hx := congrArg Vec3.x hh
    simp [obsJc, obs0] at hx
  · rw [h.2]
    intro hh
    have hx := congrArg Vec3.x hh
    simp [obsJc, obs0, JourneyParams.default, UniversalCoord.offsetKm] at hx

/-- A quiescent travelling observer whose journey ends at (7, 0, 0). -/
def obsJ : Observer :=
  { obs0 with
    observerMode := ObserverMode.Travelling,
    journey := { JourneyParams.default with
      duration := 1, startTime := 0, fromPos := 0, toPos := ⟨7, 0, 0⟩,
      finalOrientation := 1, startInterpolation := 0, endInterpolation := 0.5,
      expFactor := 2, accelTime := 0.5, traj := TrajectoryType.Linear } }

/-- Witness for the amended C3 theorem: a concrete quiescent journey
completes exactly. -/
theorem journey_completion_amended_witness :
    (obsJ.observerMode = ObserverMode.Travelling ∧
     0 < obsJ.journey.duration ∧
     obsJ.journey.startTime + obsJ.journey.duration ≤ obsJ.realTime + 2 ∧
     obsJ.targetVelocity = 0) ∧
    ((obsJ.update 2 1).observerMode = ObserverMode.Free ∧
     (obsJ.update 2 1).position = obsJ.journey.toPos ∧
     (obsJ.update 2 1).orientation = obsJ.journey.finalOrientation ∧
     (obsJ.update 2 1).getVelocity = 0) := by
  have hb : ¬ (obsJ.frame.convertToUniversal obsJ.journey.toPos
      (advancedSimTime obsJ 2 1)).isOutOfBounds := by
    have heq : obsJ.frame.convertToUniversal obsJ.journey.toPos
        (advancedSimTime obsJ 2 1) = ⟨7, 0, 0⟩ := by
      show (ObserverFrame.default).convertToUniversal ⟨7, 0, 0⟩ _ = _
      simp [ObserverFrame.default, ObserverFrame.createFrame,
        ObserverFrame.convertToUniversal, ReferenceFrame.posToUniversal,
        Sel.getPosition]
    rw [heq]
    refine not_oob_of_small _ ?_ ?_ ?_ <;>
      simp only [Vec3.mk_x, Vec3.mk_y, Vec3.mk_z] <;>
      rw [abs_le] <;> constructor <;> norm_num
  exact ⟨⟨rfl, by norm_num [obsJ, obs0], by norm_num [obsJ, obs0], rfl⟩,
    journey_completion_amended obsJ 2 1 rfl (by norm_num [obsJ, obs0])
      (Or.inl rfl) (by norm_num [obsJ, obs0]) rfl rfl rfl
      (by
        show qnormSq (1 : Quat) = 1
        unfold qnormSq
        simp) hb⟩

/-- The example body B: radius 6371 km, sitting at (1e6, 0, 0) km. -/
def bodyB : Sel :=
  Sel.body (fun _ => ⟨1e6, 0, 0⟩) 6371 false none none Sel.empty
    (fun _ => 1) (fun _ => 1)

/-- The example scenario start: observer at the universal origin with an
Ecliptical frame anchored at body B. -/
def obsB : Observer :=
  { obs0 with
    frame := ObserverFrame.make CoordinateSystem.Ecliptical bodyB Sel.empty,
    position := ⟨-1e6, 0, 0⟩ }

/-- The scenario state after `gotoSelection(B, 5.0, up, Universal)`. -/
def o1B : Observer :=
  obsB.gotoSelection4 bodyB 5 Vec3.unitY CoordinateSystem.Universal

theorem o1B_simple_fields :
    o1B.observerMode = ObserverMode.Travelling ∧
    o1B.journey.traj = TrajectoryType.Linear ∧
    o1B.journey.duration = 5 ∧
    o1B.journey.startTime = 0 ∧
    o1B.realTime = 0 ∧
    o1B.targetVelocity = 0 ∧
    o1B.angularVelocity = 0 ∧
    o1B.trackObject = Sel.empty ∧
    o1B.frame = ObserverFrame.make CoordinateSystem.Ecliptical bodyB Sel.empty ∧
    o1B.journey.accelTime = 0.5 :=
  ⟨rfl, rfl, rfl, rfl, rfl, rfl, rfl, rfl, rfl, rfl⟩

theorem o1B_startInterpolation : o1B.journey.startInterpolation = 0 := by
  have h : o1B.journey.startInterpolation = min (0.0 : ℝ) 0.5 := rfl
  rw [h]
  norm_num

theorem o1B_endInterpolation : o1B.journey.endInterpolation = 0.5 := by
  have h : o1B.journey.endInterpolation = max (0.0 : ℝ) 0.5 := rfl
  rw [h]
  norm_num

theorem o1B_finalOrientation : o1B.journey.finalOrientation = 1 := by
  have h : o1B.journey.finalOrientation
      = (ObserverFrame.make CoordinateSystem.Ecliptical bodyB
          Sel.empty).convertFromUniversalQ
        (lookAt 0
          ((bodyB.getPosition 0).offsetFromKm
            ((bodyB.getPosition 0).offsetKm
              (qrotE (star ((ObserverFrame.make CoordinateSystem.Universal bodyB
                  Sel.empty).getFrame.getOrientation 0))
                ((-(getOrbitDistance bodyB
                      (((bodyB.getPosition 0).offsetFromKm
                        (0 : UniversalCoord)).norm)
                    / ((bodyB.getPosition 0).offsetFromKm
                        (0 : UniversalCoord)).norm)) •
                  ((bodyB.getPosition 0).offsetFromKm (0 : UniversalCoord))))))
          (qrotE (star ((ObserverFrame.make CoordinateSystem.Universal bodyB
              Sel.empty).getFrame.getOrientation 0)) Vec3.unitY)) 0 := rfl
  rw [h]
  unfold lookAt ObserverFrame.make ObserverFrame.createFrame
    ObserverFrame.convertFromUniversalQ ReferenceFrame.oriFromUniversal
  rw [if_neg (one_ne_zero)]
  simp

theorem o1B_toPos : o1B.journey.toPos = ⟨-31855, 0, 0⟩ := by
  have h : o1B.journey.toPos
      = (ObserverFrame.make CoordinateSystem.Ecliptical bodyB
          Sel.empty).convertFromUniversal
        ((bodyB.getPosition 0).offsetKm
          (qrotE (star ((ObserverFrame.make CoordinateSystem.Universal bodyB
              Sel.empty).getFrame.getOrientation 0))
            ((-(getOrbitDistance bodyB
                  (((bodyB.getPosition 0).offsetFromKm
                    (0 : UniversalCoord)).norm)
                / ((bodyB.getPosition 0).offsetFromKm
                    (0 : UniversalCoord)).norm)) •
              ((bodyB.getPosition 0).offsetFromKm (0 : UniversalCoord))))) 0 := rfl
  rw [h]
  have hpos : bodyB.getPosition 0 = ⟨1e6, 0, 0⟩ := rfl
  have hsub : UniversalCoord.offsetFromKm ⟨1e6, 0, 0⟩ (0 : UniversalCoord)
      = (⟨1e6, 0, 0⟩ : UniversalCoord) := by
    unfold UniversalCoord.offsetFromKm
    ext <;> simp
  have hnorm : (⟨1e6, 0, 0⟩ : Vec3).norm = 1e6 := by
    rw [Vec3.norm_axis]
    norm_num
  have hOD : getOrbitDistance bodyB 1e6 = 31855 := by
    unfold getOrbitDistance getPreferredDistance bodyB Sel.radius
    simp only [Bool.false_eq_true, if_false]
    rw [if_pos (by norm_num : (5.0 : ℝ) * 6371 * 10.0 < 1e6)]
    rw [max_eq_left (by norm_num : (1.01 : ℝ) * 6371 ≤ 5.0 * 6371)]
    norm_num
  rw [hpos, hsub, hnorm, hOD]
  rw [show ((ObserverFrame.make CoordinateSystem.Universal bodyB
      Sel.empty).getFrame.getOrientation 0) = 1 from rfl]
  rw [star_one, qrotE_one]
  rw [show ((-(31855 / 1e6 : ℝ)) • (⟨1e6, 0, 0⟩ : Vec3)) = ⟨-31855, 0, 0⟩ by
    ext <;> norm_num]
  unfold ObserverFrame.make ObserverFrame.createFrame
    ObserverFrame.convertFromUniversal ReferenceFrame.posFromUniversal
    UniversalCoord.offsetKm
  rw [show bodyB.getPosition 0 = ⟨1e6, 0, 0⟩ from rfl]
  rw [rotAct_one]
  ext <;> simp

theorem o1B_update_core :
    (o1B.update 5 1).getMode = ObserverMode.Free ∧
    ((o1B.update 5 1).getPosition.offsetFromKm
        (bodyB.getPosition (o1B.update 5 1).simTime)).norm = 31855 := by
  have hdur : 0 < o1B.journey.duration := by
    rw [show o1B.journey.duration = 5 from rfl]
    norm_num
  have harr : o1B.journey.startTime + o1B.journey.duration ≤ o1B.realTime + 5 := by
    rw [show o1B.journey.startTime = 0 from rfl,
      show o1B.journey.duration = 5 from rfl,
      show o1B.realTime = 0 from rfl]
  have hunit : qnormSq o1B.journey.finalOrientation = 1 := by
    rw [o1B_finalOrientation]
    unfold qnormSq
    simp
  have htoU : o1B.frame.convertToUniversal o1B.journey.toPos
      (advancedSimTime o1B 5 1) = ⟨968145, 0, 0⟩ := by
    rw [o1B_toPos, show o1B.frame
      = ObserverFrame.make CoordinateSystem.Ecliptical bodyB Sel.empty from rfl]
    unfold ObserverFrame.make ObserverFrame.createFrame
      ObserverFrame.convertToUniversal ReferenceFrame.posToUniversal
    rw [inv_one, rotAct_one]
    rw [show bodyB.getPosition (advancedSimTime o1B 5 1) = ⟨1e6, 0, 0⟩ from rfl]
    ext <;> simp
    norm_num
  have hbound : ¬ (o1B.frame.convertToUniversal o1B.journey.toPos
      (advancedSimTime o1B 5 1)).isOutOfBounds := by
    rw [htoU]
    refine not_oob_of_small _ ?_ ?_ ?_ <;>
      simp only [Vec3.mk_x, Vec3.mk_y, Vec3.mk_z] <;>
      rw [abs_le] <;> constructor <;> norm_num
  have h := journey_completion_core o1B 5 1 rfl hdur (Or.inl rfl) harr rfl rfl
    rfl hunit hbound
  constructor
  · exact h.1
  · show ((o1B.update 5 1).positionUniv.offsetFromKm
        (bodyB.getPosition (o1B.update 5 1).simTime)).norm = 31855
    rw [h.2.2.2.2.1, htoU, h.2.2.2.2.2.1]
    rw [show bodyB.getPosition (advancedSimTime o1B 5 1) = ⟨1e6, 0, 0⟩ from rfl]
    rw [show UniversalCoord.offsetFromKm ⟨968145, 0, 0⟩
        (⟨1e6, 0, 0⟩ : UniversalCoord) = (⟨-31855, 0, 0⟩ : Vec3) by
      unfold UniversalCoord.offsetFromKm
      ext <;> norm_num]
    rw [Vec3.norm_axis]
    norm_num

/-- C9 (amended): in the example scenario (observer at the universal
origin, Ecliptical frame anchored at body B of radius 6371 km at
distance 1e6 km), `gotoSelection(B, 5.0, up, upFrame)` uses the
interpolation window [0.0, 0.5] — not [0.25, 0.75] as claimed — and
acceleration time 0.5; after a single `update(5.0, 1.0)` the mode is
`Free` and the distance to B equals `getPreferredDistance(B) = 5 × 6371`
km — not `5 × getPreferredDistance(B)` as claimed. -/
theorem example_scenario_amended :
    o1B.journey.startInterpolation = 0 ∧
    o1B.journey.endInterpolation = 0.5 ∧
    o1B.journey.accelTime = 0.5 ∧
    (o1B.update 5 1).getMode = ObserverMode.Free ∧
    ((o1B.update 5 1).getPosition.offsetFromKm
        (bodyB.getPosition (o1B.update 5 1).simTime)).norm
      = getPreferredDistance bodyB ∧
    getPreferredDistance bodyB = 5.0 * 6371 := by
  have hpd : getPreferredDistance bodyB = 5.0 * 6371 := by
    unfold getPreferredDistance bodyB
    simp only [Bool.false_eq_true, if_false]
  refine ⟨o1B_startInterpolation, o1B_endInterpolation, rfl,
    o1B_update_core.1, ?_, hpd⟩
  rw [o1B_update_core.2, hpd]
  norm_num

/-- Counterexample to C9 as stated: the four-argument `gotoSelection`
installs interpolation window [0.0, 0.5] (so `startInterpolation` is not
0.25), and after the completing update the distance to B is 31855 km
(= getPreferredDistance), not `5 × 5 × 6371 = 159275` km. -/
theorem example_scenario_counterexample :
    o1B.journey.startInterpolation ≠ 0.25 ∧
    ((o1B.update 5 1).getPosition.offsetFromKm
        (bodyB.getPosition (o1B.update 5 1).simTime)).norm
      ≠ 5 * (5 * 6371) := by
  constructor
  · rw [o1B_startInterpolation]
    norm_num
  · rw [o1B_update_core.2]
    norm_num
